import Mathlib

/-!
Verification of the freetype glyph-rendering pipeline (Go sources) against its
natural-language specification.  The Go code is shallowly embedded: pure
functions become Lean functions, in-place mutation becomes explicit state
passing, machine integers are modelled by `Int` with explicit wrap-around
(`trunc32`, `trunc16`, …) wherever the Go code computes in `int32`/`int16`,
and code paths that can fail (returned `error`s, and Go runtime panics such
as out-of-range slice indexing or nil dereference) return `Except`/`Option`
values.  Go's bitwise operators on signed integers are modelled by
kernel-computable two's-complement bit functions (`land32`, `lor32`, …).
-/

namespace FT

/-! ## Machine-integer helpers -/

/-- Wrap an unbounded integer to the `int32` range, as Go's 32-bit
arithmetic does. -/
def trunc32 (x : Int) : Int :=
  (x + 2147483648) % 4294967296 - 2147483648

/-- Wrap an unbounded integer to the `int16` range. -/
def trunc16 (x : Int) : Int :=
  (x + 32768) % 65536 - 32768

/-- Interpret a byte value (`0 ≤ n < 256`) as Go's `int8`. -/
def toInt8 (n : Nat) : Int :=
  if n % 256 < 128 then (n % 256 : Int) else (n % 256 : Int) - 256

/-- Interpret a 16-bit value as Go's `int16`. -/
def toInt16 (n : Nat) : Int :=
  if n % 65536 < 32768 then (n % 65536 : Int) else (n % 65536 : Int) - 65536

/-- Go `int32` addition (wrapping). -/
def add32 (x y : Int) : Int := trunc32 (x + y)

/-- Go `int32` subtraction (wrapping). -/
def sub32 (x y : Int) : Int := trunc32 (x - y)

/-- Go `int32` negation (wrapping). -/
def neg32 (x : Int) : Int := trunc32 (-x)

/-- The unsigned 32-bit pattern of an integer. -/
def toU32 (x : Int) : Nat := (x % 4294967296).toNat

/-- Reinterpret an unsigned 32-bit pattern as a signed `int32`. -/
def ofU32 (u : Nat) : Int :=
  if u % 4294967296 < 2147483648 then (u % 4294967296 : Int)
  else (u % 4294967296 : Int) - 4294967296

/-- Digit-by-digit binary zip, driven by explicit fuel so that the kernel can
evaluate it (Lean's built-in `Nat.bitwise` uses well-founded recursion and
does not reduce definitionally).  `op` receives single bits. -/
def bitZip (op : Nat → Nat → Nat) : Nat → Nat → Nat → Nat
  | 0, _, _ => 0
  | f + 1, a, b => op (a % 2) (b % 2) + 2 * bitZip op f (a / 2) (b / 2)

/-- Go's `&` on `int32`, in two's complement. -/
def land32 (x y : Int) : Int :=
  ofU32 (bitZip (fun a b => a * b) 32 (toU32 x) (toU32 y))

/-- Go's `|` on `int32`, in two's complement. -/
def lor32 (x y : Int) : Int :=
  ofU32 (bitZip (fun a b => a + b - a * b) 32 (toU32 x) (toU32 y))

/-- Go's `^` (binary xor) on `int32`, in two's complement. -/
def lxor32 (x y : Int) : Int :=
  ofU32 (bitZip (fun a b => (a + b) % 2) 32 (toU32 x) (toU32 y))

/-- Go's `&^` (and-not) on `int32`: `x &^ y = x & ^y`, and the two's
complement of `y` is `-y - 1`. -/
def andNot32 (x y : Int) : Int := land32 x (-y - 1)

/-- Go's arithmetic shift right by `n` bits (rounds toward minus infinity). -/
def sar (x : Int) (n : Nat) : Int := Int.fdiv x (2 ^ n)

/-! ## Graphics state and the rounding algorithm (hint.go) -/

/-- Graphics state of the TrueType hinter, translated from
`truetype/hint.go`.  `pv`, `fv`, `dv` hold `f2dot14` pairs; everything else
is an `int32`-ranged integer. -/
structure graphicsState where
  pv : Int × Int
  fv : Int × Int
  dv : Int × Int
  rp0 : Int
  rp1 : Int
  rp2 : Int
  zp0 : Int
  zp1 : Int
  zp2 : Int
  controlValueCutIn : Int
  singleWidthCutIn : Int
  singleWidth : Int
  deltaBase : Int
  deltaShift : Int
  minDist : Int
  loop : Int
  roundPeriod : Int
  roundPhase : Int
  roundThreshold : Int
  autoFlip : Bool
  deriving DecidableEq, Repr

/-- The global default graphics state, translated from `globalDefaultGS` in
`truetype/hint.go`. -/
def globalDefaultGS : graphicsState where
  pv := (0x4000, 0)
  fv := (0x4000, 0)
  dv := (0x4000, 0)
  rp0 := 0
  rp1 := 0
  rp2 := 0
  zp0 := 1
  zp1 := 1
  zp2 := 1
  controlValueCutIn := (17 * 64) / 16
  singleWidthCutIn := 0
  singleWidth := 0
  deltaBase := 9
  deltaShift := 3
  minDist := 1 * 64
  loop := 1
  roundPeriod := 1 * 64
  roundPhase := 0
  roundThreshold := 1 * 32
  autoFlip := true

/-- `Hinter.round` from `truetype/hint.go`, with `int32` arithmetic made
explicit.  Only the graphics state's rounding fields are consulted. -/
def round (gs : graphicsState) (x : Int) : Int :=
  if gs.roundPeriod = 0 then
    -- Rounding is off.
    x
  else if 0 ≤ x then
    let ret := land32 (add32 (sub32 x gs.roundPhase) gs.roundThreshold)
      (neg32 gs.roundPeriod)
    let ret := if x ≠ 0 ∧ ret < 0 then 0 else ret
    add32 ret gs.roundPhase
  else
    let ret := neg32 (land32 (add32 (sub32 (neg32 x) gs.roundPhase) gs.roundThreshold)
      (neg32 gs.roundPeriod))
    let ret := if 0 < ret then 0 else ret
    sub32 ret gs.roundPhase

/-- The rounding formula exactly as the specification words it (C1):
`sign(v) · ((|v| − phase + threshold) & −period) + phase`, with ordinary
operator precedence, so the phase is added outside the sign factor.  This is
a second definition written from the spec's words, to be compared against
`round`, which is translated from the source. -/
def roundSpecC1 (gs : graphicsState) (x : Int) : Int :=
  Int.sign x *
      land32 (add32 (sub32 (Int.natAbs x) gs.roundPhase) gs.roundThreshold)
        (neg32 gs.roundPeriod) +
    gs.roundPhase

/-- A concrete graphics state for the C1 counterexample: rounding to grid
with a half-grid phase (`period = 64`, `phase = 32`, `threshold = 32`). -/
def gsC1 : graphicsState :=
  { globalDefaultGS with roundPeriod := 64, roundPhase := 32, roundThreshold := 32 }

set_option maxHeartbeats 2000000 in
/-- C1 (counterexample): at `v = −64` with state `(period, phase, threshold)
= (64, 32, 32)` the code returns `−96`, while the claim's formula
`sign(v) · ((|v| − phase + threshold) & −period) + phase` gives
`−64 + 32 = −32`.  The unclamped spec value `−32` already has the same sign
as `v`, so no reading of the claim's opposite-sign clamp can repair the
mismatch at this input. -/
theorem round_claim_counterexample :
    round gsC1 (-64) ≠ roundSpecC1 gsC1 (-64) ∧
      round gsC1 (-64) = -96 ∧ roundSpecC1 gsC1 (-64) = -32 := by
  decide

/-- The negative-branch clamp of `round`, described with `min`. -/
theorem if_clamp_min (r : Int) : (if 0 < r then 0 else r) = min 0 r := by
  rcases le_or_lt r 0 with h | h
  · rw [if_neg (by omega), min_eq_right h]
  · rw [if_pos h, min_eq_left h.le]

/-- The nonneg-branch clamp of `round`, described with `max`. -/
theorem if_clamp_max (x r : Int) (hx : x ≠ 0) :
    (if x ≠ 0 ∧ r < 0 then 0 else r) = max 0 r := by
  rcases le_or_lt 0 r with h | h
  · rw [if_neg (by omega), max_eq_right h]
  · rw [if_pos ⟨hx, h⟩, max_eq_left h.le]

/-- C1 (amended): with state `(period, phase, threshold)` and `period ≠ 0`,
`round` returns, for `v > 0`, `max 0 ((v − phase + threshold) & −period) +
phase`; for `v < 0`, `min 0 (−((−v − phase + threshold) & −period)) − phase`
(so the phase is applied inside the overall sign, and the AND term is clamped
toward zero); and for `v = 0`, `((−phase + threshold) & −period) + phase`
with no clamping.  All arithmetic wraps at 32 bits. -/
theorem round_closed_form (gs : graphicsState) (x : Int) :
    round gs x =
      if gs.roundPeriod = 0 then x
      else if 0 < x then
        add32 (max 0 (land32 (add32 (sub32 x gs.roundPhase) gs.roundThreshold)
          (neg32 gs.roundPeriod))) gs.roundPhase
      else if x < 0 then
        sub32 (min 0 (neg32 (land32
          (add32 (sub32 (neg32 x) gs.roundPhase) gs.roundThreshold)
          (neg32 gs.roundPeriod)))) gs.roundPhase
      else
        add32 (land32 (add32 (sub32 x gs.roundPhase) gs.roundThreshold)
          (neg32 gs.roundPeriod)) gs.roundPhase := by
  unfold round
  dsimp only
  rcases eq_or_ne gs.roundPeriod 0 with hp | hp
  · rw [if_pos hp, if_pos hp]
  · rw [if_neg hp, if_neg hp]
    rcases lt_trichotomy x 0 with hx | hx | hx
    · rw [if_neg (by omega : ¬ (0:Int) ≤ x), if_neg (by omega : ¬ (0:Int) < x),
        if_pos hx, if_clamp_min]
    · subst hx
      rw [if_pos le_rfl, if_neg (by omega : ¬ (0:Int) < 0),
        if_neg (by omega : ¬ (0:Int) < 0), if_neg (by simp)]
    · rw [if_pos hx.le, if_pos hx, if_clamp_max x _ (by omega)]

/-! ## Byte-slice readers (truetype.go)

Go's `data` helpers read big-endian integers from a `[]byte` and panic when
the slice is too short; the panic is modelled by `none`.  Elements of the
byte lists are `Nat`s that are below 256 for any list that comes from a Go
`[]byte`. -/

/-- Big-endian `uint16` at offset `i`, `none` when out of range (Go panic). -/
def u16 (b : List Nat) (i : Nat) : Option Nat :=
  if i + 1 < b.length then some (b.getD i 0 * 256 + b.getD (i + 1) 0) else none

/-- Big-endian `uint32` at offset `i`, `none` when out of range (Go panic). -/
def u32 (b : List Nat) (i : Nat) : Option Nat :=
  if i + 3 < b.length then
    some (b.getD i 0 * 16777216 + b.getD (i + 1) 0 * 65536 +
      b.getD (i + 2) 0 * 256 + b.getD (i + 3) 0)
  else none

/-- A parsed cmap segment (`cm` in truetype.go); all fields are `uint16`.
`endCode` renders the Go field `end`, which is a Lean keyword. -/
structure cmEntry where
  start : Nat
  endCode : Nat
  delta : Nat
  offset : Nat
  deriving DecidableEq, Repr

/-- Vertical metrics of one glyph (`VMetric` in the modern truetype.go). -/
structure VMetric where
  AdvanceHeight : Int
  TopSideBearing : Int
  deriving DecidableEq, Repr

/-- Horizontal metrics of one glyph (`HMetric` in truetype.go):
`AdvanceWidth` is a `uint16`, `LeftSideBearing` an `int16`. -/
structure HMetric where
  AdvanceWidth : Nat
  LeftSideBearing : Int
  deriving DecidableEq, Repr

/-- A parsed TrueType font.  The fields are the ones consumed by the
operations verified here: the parsed cmap (`cm`, `cmapIndexes`), the raw
`hmtx`/`loca`/`glyf`/`cvt` tables, the cached scalar values, and the
hinting programs.  `unscaledVMetric` is code of the repository missing from
src/; it is modelled from the spec as an opaque per-font lookup giving the
`(tsb, vertAdvance)` pair used for the phantom points. -/
structure Font where
  cm : List cmEntry
  cmapIndexes : List Nat
  hmtx : List Nat
  loca : List Nat
  glyf : List Nat
  cvt : List Nat
  fpgm : List Nat
  prep : List Nat
  nGlyph : Nat
  nHMetric : Nat
  unitsPerEm : Int
  locaOffsetFormat : Nat
  maxTwilightPoints : Nat
  maxStackElements : Nat
  maxStorage : Nat
  vMetricOf : Nat → Int → VMetric

/-- `locaOffsetFormatShort` from truetype.go. -/
def locaOffsetFormatShort : Nat := 1

/-- Modelled from the spec: `Font.scale` is code of the repository missing
from src/ (only its callers are present).  Per §4.3 of the spec it computes
`(raw + signum(raw)·(unitsPerEm/2)) / unitsPerEm` in 64-bit arithmetic,
i.e. a round-to-nearest FUnit→pixel conversion (Go division truncates
toward zero). -/
def Font.scale (f : Font) (x : Int) : Int :=
  Int.tdiv (x + Int.sign x * Int.tdiv f.unitsPerEm 2) f.unitsPerEm

/-- The scan over the cmap segments inside `Font.Index` (truetype.go).
`i` is the loop counter, `n` the total segment count, `c` the low 16 bits
of the code point. -/
def indexLoop (cmapIndexes : List Nat) (n c : Nat) : Nat → List cmEntry → Option Nat
  | _, [] => some 0
  | i, e :: rest =>
    if e.start ≤ c ∧ c ≤ e.endCode then
      if e.offset = 0 then some ((c + e.delta) % 65536)
      else
        let off : Int := (e.offset : Int) + 2 * ((i : Int) - (n : Int) + ((c : Int) - (e.start : Int)))
        if 0 ≤ off then u16 cmapIndexes off.toNat else none
    else indexLoop cmapIndexes n c (i + 1) rest

/-- `Font.Index` from truetype.go: `c := uint16(codePoint)` reduces the code
point to its low 16 bits, then the segments are scanned linearly.  A
negative computed `offset` or a too-short `cmapIndexes` is a Go panic,
modelled by `none`. -/
def Font.Index (f : Font) (codePoint : Int) : Option Nat :=
  indexLoop f.cmapIndexes f.cm.length (codePoint % 65536).toNat 0 f.cm

/-- `Font.HMetric` from truetype.go.  Indices at or above `nGlyph` yield the
zero metric; indices in `[nHMetric, nGlyph)` are clamped to the last
explicit metric's advance width and read a 2-byte side bearing from the
trailing part of `hmtx`; otherwise the 4-byte metric at `4·i` is read.
A negative `hmtx` offset (possible when `nHMetric = 0`) is a Go panic,
modelled by `none`. -/
def Font.HMetric (f : Font) (i : Nat) : Option HMetric :=
  if f.nGlyph ≤ i then some ⟨0, 0⟩
  else if f.nHMetric ≤ i then
    let p : Int := 4 * ((f.nHMetric : Int) - 1)
    if 0 ≤ p then
      match u16 f.hmtx p.toNat with
      | none => none
      | some aw =>
        match u16 f.hmtx (p + 2 * ((i : Int) - (f.nHMetric : Int)) + 4).toNat with
        | none => none
        | some lsb => some ⟨aw, toInt16 lsb⟩
    else none
  else
    match u16 f.hmtx (4 * i), u16 f.hmtx (4 * i + 2) with
    | some aw, some lsb => some ⟨aw, toInt16 lsb⟩
    | _, _ => none

/-- C9: `Font.Index` depends only on the low 16 bits of the code point:
code points congruent modulo 2^16 map to the same glyph index (so
code points at or above 0x10000 alias into the Basic Multilingual Plane). -/
theorem Font_Index_low16 (f : Font) (r1 r2 : Int) (h : r1 % 65536 = r2 % 65536) :
    f.Index r1 = f.Index r2 := by
  unfold Font.Index
  rw [h]

/-- A tiny concrete font used as a witness: a single cmap segment mapping
code points 0x40–0x50 by identity (`delta = 0`, `offset = 0`). -/
def fontW : Font where
  cm := [⟨0x40, 0x50, 0, 0⟩]
  cmapIndexes := []
  hmtx := [0, 7, 0, 3, 0, 9, 0, 2, 0, 5]
  loca := []
  glyf := []
  cvt := []
  fpgm := []
  prep := []
  nGlyph := 3
  nHMetric := 2
  unitsPerEm := 2048
  locaOffsetFormat := 1
  maxTwilightPoints := 0
  maxStackElements := 0
  maxStorage := 0
  vMetricOf := fun _ _ => ⟨0, 0⟩

/-- Witness for C9: `0x10041` and `0x41` agree modulo 2^16, so they get the
same (non-missing) glyph index. -/
theorem Font_Index_low16_witness :
    fontW.Index 65601 = fontW.Index 65 ∧ fontW.Index 65 = some 65 :=
  ⟨Font_Index_low16 fontW 65601 65 (by decide), by decide⟩

/-- C10: for glyph indices at or above `nGlyph`, `Font.HMetric` returns the
zero metric without failing and without reading `hmtx`; and when
`nHMetric ≤ i < nGlyph` (with a well-formed `hmtx` of length
`4·nHMetric + 2·(nGlyph − nHMetric)` and `nHMetric > 0`), the advance width
is clamped to that of the last explicit metric `nHMetric − 1`. -/
theorem Font_HMetric_ranges (f : Font) (i : Nat) :
    (f.nGlyph ≤ i → f.HMetric i = some ⟨0, 0⟩) ∧
      (f.nHMetric ≤ i → i < f.nGlyph → 0 < f.nHMetric →
        f.hmtx.length = 4 * f.nHMetric + 2 * (f.nGlyph - f.nHMetric) →
        ∃ m m', f.HMetric i = some m ∧ f.HMetric (f.nHMetric - 1) = some m' ∧
          m.AdvanceWidth = m'.AdvanceWidth) := by
  constructor
  · intro h
    unfold Font.HMetric
    rw [if_pos h]
  · intro h1 h2 h3 hlen
    unfold Font.HMetric
    rw [if_neg (by omega), if_pos h1, if_pos (by omega : (0:Int) ≤ 4 * ((f.nHMetric : Int) - 1))]
    rw [if_neg (by omega), if_neg (by omega)]
    have e1 : (4 * ((f.nHMetric : Int) - 1)).toNat = 4 * (f.nHMetric - 1) := by omega
    have e2 : (4 * ((f.nHMetric : Int) - 1) + 2 * ((i : Int) - (f.nHMetric : Int)) + 4).toNat
        = 4 * f.nHMetric + 2 * (i - f.nHMetric) := by omega
    rw [e1, e2]
    rw [show u16 f.hmtx (4 * (f.nHMetric - 1))
        = some (f.hmtx.getD (4 * (f.nHMetric - 1)) 0 * 256 + f.hmtx.getD (4 * (f.nHMetric - 1) + 1) 0)
      from by unfold u16; rw [if_pos (by omega)]]
    rw [show u16 f.hmtx (4 * f.nHMetric + 2 * (i - f.nHMetric))
        = some (f.hmtx.getD (4 * f.nHMetric + 2 * (i - f.nHMetric)) 0 * 256 +
          f.hmtx.getD (4 * f.nHMetric + 2 * (i - f.nHMetric) + 1) 0)
      from by unfold u16; rw [if_pos (by omega)]]
    rw [show u16 f.hmtx (4 * (f.nHMetric - 1) + 2)
        = some (f.hmtx.getD (4 * (f.nHMetric - 1) + 2) 0 * 256 +
          f.hmtx.getD (4 * (f.nHMetric - 1) + 2 + 1) 0)
      from by unfold u16; rw [if_pos (by omega)]]
    exact ⟨_, _, rfl, rfl, rfl⟩

/-- Witness for C10 at the concrete font `fontW` (`nGlyph = 3`,
`nHMetric = 2`, 8-byte `hmtx`): index 5 is past `nGlyph` and yields the zero
metric; index 2 is clamped to the advance of index 1. -/
theorem Font_HMetric_ranges_witness :
    fontW.HMetric 5 = some ⟨0, 0⟩ ∧
      ∃ m m', fontW.HMetric 2 = some m ∧ fontW.HMetric 1 = some m' ∧
        m.AdvanceWidth = m'.AdvanceWidth :=
  ⟨(Font_HMetric_ranges fontW 5).1 (by decide),
    (Font_HMetric_ranges fontW 2).2 (by decide) (by decide) (by decide) (by decide)⟩

/-! ## Face options and sub-pixel quantization (truetype/face.go) -/

/-- The sub-pixel fields of `Options` from face.go.  `Size`, `DPI` and
`Hinting` are not modelled: they are floating point / unrelated to the
sub-pixel claims. -/
structure Options where
  SubPixelsX : Int
  SubPixelsY : Int
  deriving DecidableEq, Repr

/-- `subPixels` from face.go: the `(bias, mask)` pair giving `q` quantized
sub-pixel locations per pixel (`bias = 32/q`, `mask = -64/q`, Go integer
division). -/
def subPixels (q : Int) : Int × Int :=
  (Int.tdiv 32 q, Int.tdiv (-64) q)

/-- `Options.subPixelsX` from face.go; a `nil` receiver is `none`. -/
def Options.subPixelsX (o : Option Options) : Int × Int :=
  match o with
  | some o =>
    if o.SubPixelsX = 1 ∨ o.SubPixelsX = 2 ∨ o.SubPixelsX = 4 ∨ o.SubPixelsX = 8 ∨
        o.SubPixelsX = 16 ∨ o.SubPixelsX = 32 ∨ o.SubPixelsX = 64 then
      subPixels o.SubPixelsX
    else subPixels 4
  | none => subPixels 4

/-- `Options.subPixelsY` from face.go, translated exactly as written: the
switch inspects `o.SubPixelsX` (not `o.SubPixelsY`) and passes
`o.SubPixelsX` to `subPixels`. -/
def Options.subPixelsY (o : Option Options) : Int × Int :=
  match o with
  | some o =>
    if o.SubPixelsX = 1 ∨ o.SubPixelsX = 2 ∨ o.SubPixelsX = 4 ∨ o.SubPixelsX = 8 ∨
        o.SubPixelsX = 16 ∨ o.SubPixelsX = 32 ∨ o.SubPixelsX = 64 then
      subPixels o.SubPixelsX
    else subPixels 1
  | none => subPixels 1

/-- The dot quantization performed at the top of `face.Glyph`
(`dotX = (dot.X + subPixelBiasX) & subPixelMaskX`), horizontal direction. -/
def faceQuantizeX (o : Option Options) (dotX : Int) : Int :=
  land32 (add32 dotX (Options.subPixelsX o).1) (Options.subPixelsX o).2

/-- The dot quantization performed at the top of `face.Glyph`, vertical
direction. -/
def faceQuantizeY (o : Option Options) (dotY : Int) : Int :=
  land32 (add32 dotY (Options.subPixelsY o).1) (Options.subPixelsY o).2

/-- The failing `Options` value for C6. -/
def optC6 : Options := ⟨8, 2⟩

set_option maxHeartbeats 2000000 in
/-- C6 (code bug): with `SubPixelsX = 8` and `SubPixelsY = 2`,
`Options.subPixelsY` returns the 1/8-pixel grid `(4, −8)` taken from
`SubPixelsX`, not the claimed/documented 1/2-pixel grid `(16, −32)` from
`SubPixelsY`; a dot with `dot.Y = 20` is quantized vertically to `24`
instead of the claimed `32`.  The doc comment on `Options.SubPixelsY`
states that it controls the vertical direction, so the code contradicts
its own documentation. -/
theorem face_subPixelsY_bug :
    Options.subPixelsY (some optC6) = subPixels 8 ∧
      subPixels 8 = (4, -8) ∧ subPixels 2 = (16, -32) ∧
      faceQuantizeY (some optC6) 20 = 24 ∧
      land32 (add32 20 16) (-32) = 32 := by
  refine ⟨by decide, by decide, by decide, by decide, by decide⟩

/-! ## Span painters (raster/paint.go)

Destination images are `image.Alpha` values whose `Pixel` field is a
row-major grid of 8-bit alpha values, modelled as `List (List Nat)`.
Out-of-range slice accesses (Go panics) are modelled by `none`. -/

/-- A raster span: pixels `[X0, X1)` of row `Y` with 32-bit alpha `A`. -/
structure Span where
  Y : Int
  X0 : Int
  X1 : Int
  A : Nat
  deriving DecidableEq, Repr

/-- Write one pixel of a row; `none` models the Go out-of-range panic. -/
def setPix (p : List Nat) (x : Int) (v : Nat) : Option (List Nat) :=
  if 0 ≤ x ∧ x < (p.length : Int) then some (p.set x.toNat (v % 256)) else none

/-- Read one pixel of a row; `none` models the Go out-of-range panic. -/
def getPix (p : List Nat) (x : Int) : Option Nat :=
  if 0 ≤ x ∧ x < (p.length : Int) then some (p.getD x.toNat 0) else none

/-- The `src over dst` alpha blend from `AlphaPainter.Paint`:
`ax = (ax·255 + (255 − ax)·a) / 255`. -/
def blendOver (ax a : Nat) : Nat :=
  (ax * 255 + (255 - ax) * a) / 255

/-- The inner pixel loop of `AlphaPainter.Paint` (and of the
`AlphaOverPainter`/`AlphaSrcPainter` closures): write pixels `x`, `x+1`, …
while `x < x1`.  `fuel` is `(x1 − x).toNat` at the call, which matches the
iteration count exactly, so the `0` case is the ordinary loop exit. -/
def paintRowLoop (isOver : Bool) (a : Nat) (x1 : Int) : Nat → Int → List Nat → Option (List Nat)
  | 0, _, p => some p
  | fuel + 1, x, p =>
    if x < x1 then
      match (if isOver then (getPix p x).map (fun ax => blendOver ax a) else some a) with
      | none => none
      | some v =>
        match setPix p x v with
        | none => none
        | some p' => paintRowLoop isOver a x1 fuel (x + 1) p'
    else some p

/-- `AlphaPainter` from raster/paint.go: destination rows, Porter-Duff
operator (`true` = Over), and a span offset. -/
structure AlphaPainter where
  Pixel : List (List Nat)
  isOver : Bool
  Dx : Int
  Dy : Int

/-- One span of `AlphaPainter.Paint`: clip the row (skip negative rows,
stop the whole batch past the last row), clamp the column range to the row,
then paint.  Returns the updated rows, or `none` for a batch stop marker or
a panic.  `Sum.inl` = continue with updated rows, `Sum.inr` = early return
(row past the end). -/
def alphaPaintSpan (r : AlphaPainter) (rows : List (List Nat)) (s : Span) :
    Option (Sum (List (List Nat)) (List (List Nat))) :=
  let y := r.Dy + s.Y
  if y < 0 then some (Sum.inl rows)
  else if (rows.length : Int) ≤ y then some (Sum.inr rows)
  else
    let p := rows.getD y.toNat []
    let x0 := r.Dx + s.X0
    let x1 := r.Dx + s.X1
    let x0 := if x0 < 0 then 0 else x0
    let x1 := if (p.length : Int) < x1 then (p.length : Int) else x1
    match paintRowLoop r.isOver (s.A / 16777216) x1 (x1 - x0).toNat x0 p with
    | none => none
    | some p' => some (Sum.inl (rows.set y.toNat p'))

/-- The span loop of `AlphaPainter.Paint`. -/
def alphaPaint (r : AlphaPainter) (rows : List (List Nat)) : List Span → Option (List (List Nat))
  | [] => some rows
  | s :: ss =>
    match alphaPaintSpan r rows s with
    | none => none
    | some (Sum.inr rows') => some rows'
    | some (Sum.inl rows') => alphaPaint r rows' ss

/-- The closure built by `AlphaSrcPainter` (the second paint.go draft):
`p := m.Pixel[s.Y]` and the pixel writes are performed with no clipping at
all, so any span outside the destination is a Go panic (`none`). -/
def alphaSrcPaint (rows : List (List Nat)) : List Span → Option (List (List Nat))
  | [] => some rows
  | s :: ss =>
    if 0 ≤ s.Y ∧ s.Y < (rows.length : Int) then
      let p := rows.getD s.Y.toNat []
      match paintRowLoop false (s.A / 16777216) s.X1 (s.X1 - s.X0).toNat s.X0 p with
      | none => none
      | some p' => alphaSrcPaint (rows.set s.Y.toNat p') ss
    else none

/-- The closure built by `AlphaOverPainter` (the second paint.go draft),
unclipped like `alphaSrcPaint` but blending. -/
def alphaOverPaint (rows : List (List Nat)) : List Span → Option (List (List Nat))
  | [] => some rows
  | s :: ss =>
    if 0 ≤ s.Y ∧ s.Y < (rows.length : Int) then
      let p := rows.getD s.Y.toNat []
      match paintRowLoop true (s.A / 16777216) s.X1 (s.X1 - s.X0).toNat s.X0 p with
      | none => none
      | some p' => alphaOverPaint (rows.set s.Y.toNat p') ss
    else none

/-- C8 (counterexample): painting a span whose row lies outside the
destination through `AlphaSrcPainter` or `AlphaOverPainter` faults (Go
panic, modelled `none`) instead of clipping; likewise a span whose column
range overruns its row. -/
theorem paint_faults_counterexample :
    alphaSrcPaint [[0]] [⟨5, 0, 1, 4278190080⟩] = none ∧
      alphaOverPaint [[0]] [⟨5, 0, 1, 4278190080⟩] = none ∧
      alphaSrcPaint [[0, 0]] [⟨0, 0, 5, 4278190080⟩] = none := by
  refine ⟨rfl, rfl, by decide⟩

/-- The inner loop of `AlphaPainter.Paint` never faults once the column
range has been clamped into the row. -/
theorem paintRowLoop_isSome (isOver : Bool) (a : Nat) (x1 : Int) :
    ∀ (fuel : Nat) (x : Int) (p : List Nat), 0 ≤ x → x1 ≤ (p.length : Int) →
      (paintRowLoop isOver a x1 fuel x p).isSome := by
  intro fuel
  induction fuel with
  | zero => intro x p _ _; simp [paintRowLoop]
  | succ n ih =>
    intro x p hx hlen
    unfold paintRowLoop
    split
    · have hxr : 0 ≤ x ∧ x < (p.length : Int) := by omega
      obtain ⟨v, hv⟩ : ∃ v, (if isOver = true then
          (getPix p x).map (fun ax => blendOver ax a) else some a) = some v := by
        cases isOver
        · exact ⟨a, rfl⟩
        · refine ⟨blendOver (p.getD x.toNat 0) a, ?_⟩
          simp [getPix, if_pos hxr]
      rw [hv]
      dsimp only
      rw [show setPix p x v = some (p.set x.toNat (v % 256)) from by
        unfold setPix; rw [if_pos hxr]]
      exact ih (x + 1) (p.set x.toNat (v % 256)) (by omega)
        (by simpa [List.length_set] using hlen)
    · simp

/-- Painting a single span through `AlphaPainter.Paint` never faults: the
row and column clipping keeps every access in bounds. -/
theorem alphaPaintSpan_isSome (r : AlphaPainter) (rows : List (List Nat)) (s : Span) :
    (alphaPaintSpan r rows s).isSome := by
  unfold alphaPaintSpan
  dsimp only
  split
  · simp
  split
  · simp
  have hrow := paintRowLoop_isSome r.isOver (s.A / 16777216)
    (if ((rows.getD (r.Dy + s.Y).toNat []).length : Int) < r.Dx + s.X1
      then ((rows.getD (r.Dy + s.Y).toNat []).length : Int) else r.Dx + s.X1)
    ((if ((rows.getD (r.Dy + s.Y).toNat []).length : Int) < r.Dx + s.X1
      then ((rows.getD (r.Dy + s.Y).toNat []).length : Int) else r.Dx + s.X1) -
      (if r.Dx + s.X0 < 0 then 0 else r.Dx + s.X0)).toNat
    (if r.Dx + s.X0 < 0 then 0 else r.Dx + s.X0)
    (rows.getD (r.Dy + s.Y).toNat [])
    (by split <;> omega)
    (by split <;> omega)
  rcases Option.isSome_iff_exists.mp hrow with ⟨p', hp'⟩
  rw [hp']
  simp

/-- C8 (amended): `AlphaPainter.Paint` clips every span to the destination
bounds — negative rows are skipped, a row past the end stops the batch, and
the column range is clamped to the row — so it never faults, for every
destination and every batch of spans.  The unclipped `AlphaOverPainter` and
`AlphaSrcPainter` variants are exempt from the claim (see the
counterexample): they require in-bounds spans. -/
theorem alphaPaint_never_faults (r : AlphaPainter) (rows : List (List Nat))
    (ss : List Span) : (alphaPaint r rows ss).isSome := by
  induction ss generalizing rows with
  | nil => simp [alphaPaint]
  | cons s ss ih =>
    unfold alphaPaint
    rcases Option.isSome_iff_exists.mp (alphaPaintSpan_isSome r rows s) with ⟨res, hres⟩
    rw [hres]
    rcases res with rows' | rows'
    · exact ih rows'
    · simp

/-! ## The bytecode hinter (truetype/hint.go): state and helpers -/

/-- 64-bit wrap-around, for the one `int64` product in `iupInterp` that can
exceed 64 bits. -/
def trunc64 (x : Int) : Int :=
  (x + 9223372036854775808) % 18446744073709551616 - 9223372036854775808

/-- Bitwise and on `uint32`-ranged naturals (glyph point flags). -/
def landN (a b : Nat) : Nat := bitZip (fun x y => x * y) 32 (a % 4294967296) (b % 4294967296)

/-- Bitwise or on `uint32`-ranged naturals. -/
def lorN (a b : Nat) : Nat := bitZip (fun x y => x + y - x * y) 32 (a % 4294967296) (b % 4294967296)

/-- Bitwise and-not (`&^`) on `uint32`-ranged naturals. -/
def andNotN (a b : Nat) : Nat := bitZip (fun x y => x - x * y) 32 (a % 4294967296) (b % 4294967296)

/-- `mul` on f26dot6 values: `(x·y) >> 6` in 64-bit, truncated to `int32`. -/
def mulF (x y : Int) : Int := trunc32 (sar (x * y) 6)

/-- `div` on f26dot6 values: `(x << 6) / y` in 64-bit (Go division truncates
toward zero), truncated to `int32`.  Callers check `y ≠ 0`. -/
def divF (x y : Int) : Int := trunc32 (Int.tdiv (x * 64) y)

/-- `abs` on an f26dot6 value (`int32` negation wraps). -/
def absF (x : Int) : Int := if x < 0 then neg32 x else x

/-- `dotProduct` from hint.go: `(x·qx + y·qy) >> 14` in 64-bit, truncated to
`int32`. -/
def dotProduct (x y : Int) (q : Int × Int) : Int :=
  trunc32 (sar (x * q.1 + y * q.2) 14)

/-- `bool2int32` from hint.go. -/
def bool2int32 (b : Bool) : Int := if b then 1 else 0

/-- Glyph point flags (glyph.go). -/
def flagOnCurve : Nat := 1
def flagXShortVector : Nat := 2
def flagYShortVector : Nat := 4
def flagRepeat : Nat := 8
def flagPositiveXShortVector : Nat := 16
def flagPositiveYShortVector : Nat := 32
def flagTouchedX : Nat := 64
def flagTouchedY : Nat := 128

/-- A contour point (`Point` in glyph.go): 26.6 coordinates and a `uint32`
flag word.  Named `Pt` because `Point` collides with the theorem namespace
conventions used below; the Go field names are kept. -/
structure Pt where
  X : Int
  Y : Int
  Flags : Nat
  deriving DecidableEq, Repr

/-- The three per-zone point slices: current, unhinted and in-font-units
(`pointType` values 0, 1, 2 in hint.go). -/
structure ZonePts where
  cur : Array Pt
  unh : Array Pt
  ifu : Array Pt
  deriving DecidableEq, Repr

/-- The twilight (zone 0) and glyph (zone 1) point sets
(`Hinter.points` in hint.go; `numZone = 2`). -/
structure HPoints where
  twilight : ZonePts
  glyph : ZonePts
  deriving DecidableEq, Repr

/-- Select the `pointType` slice of a zone. -/
def ZonePts.ofType (z : ZonePts) (t : Nat) : Array Pt :=
  if t = 0 then z.cur else if t = 1 then z.unh else z.ifu

/-- Store back the `pointType` slice of a zone. -/
def ZonePts.withType (z : ZonePts) (t : Nat) (a : Array Pt) : ZonePts :=
  if t = 0 then { z with cur := a } else if t = 1 then { z with unh := a } else { z with ifu := a }

/-- A bytecode call-stack entry (`callStackEntry` in hint.go). -/
structure callStackEntry where
  program : List Nat
  pc : Int
  loopCount : Int
  deriving DecidableEq, Repr

/-- The `Hinter` value: value stack, storage, function table, font, scale,
current and default graphics state, zone points and contour ends.  The
function table is an association list whose first match wins (Go map
semantics under insert-or-replace). -/
structure Hinter where
  stack : Array Int
  store : Array Int
  functions : List (Int × List Nat)
  font : Font
  scale : Int
  gs : graphicsState
  defaultGS : graphicsState
  points : HPoints
  ends : List Int

/-- Array write used throughout: in-range writes update, out-of-range writes
are a no-op (all call sites are guarded so the no-op branch mirrors
unreachable Go code). -/
def setA {α : Type} (a : Array α) (i : Nat) (v : α) : Array α :=
  if h : i < a.size then a.set ⟨i, h⟩ v else a

/-- Read from the value stack (all call sites are guarded by the popCount /
overflow checks, so the default is unreachable). -/
def stget (a : Array Int) (i : Nat) : Int := a.getD i 0

/-- The zone selected by a zone-pointer value.  Values other than 0 and 1
index out of range in Go (`h.points` has `numZone = 2` entries), i.e.
panic, modelled as `none`. -/
def Hinter.zone (h : Hinter) (zp : Int) : Option ZonePts :=
  if zp = 0 then some h.points.twilight
  else if zp = 1 then some h.points.glyph
  else none

/-- The zone-pointer value selected by the literal zone-pointer index used
at each call site of `Hinter.point`. -/
def Hinter.zpSel (h : Hinter) (sel : Nat) : Int :=
  if sel = 0 then h.gs.zp0 else if sel = 1 then h.gs.zp1 else h.gs.zp2

/-- `Hinter.point` from hint.go: `.error` models the Go panic on a bad zone
pointer, `.ok none` is Go's nil return for an out-of-range point index. -/
def Hinter.point (h : Hinter) (sel t : Nat) (i : Int) : Except String (Option Pt) :=
  match h.zone (h.zpSel sel) with
  | none => .error "panic: zone pointer out of range"
  | some z =>
    let pts := z.ofType t
    if 0 ≤ i ∧ i < (pts.size : Int) then .ok (some (pts.getD i.toNat ⟨0, 0, 0⟩))
    else .ok none

/-- Write through a previously obtained point pointer: same zone selection
as `Hinter.point`, in-range index required by every caller. -/
def Hinter.setPt (h : Hinter) (sel t : Nat) (i : Int) (p : Pt) : Except String Hinter :=
  match h.zone (h.zpSel sel) with
  | none => .error "panic: zone pointer out of range"
  | some z =>
    let pts := z.ofType t
    let z' := z.withType t (setA pts i.toNat p)
    if h.zpSel sel = 0 then .ok { h with points := { h.points with twilight := z' } }
    else .ok { h with points := { h.points with glyph := z' } }

/-- `Hinter.move` from hint.go, acting on the `current` point `i` of the
zone selected by zone pointer `sel`.  A zero `fv·pv` dot product is a Go
integer-division panic, modelled as an error. -/
def Hinter.move (h : Hinter) (sel : Nat) (i : Int) (distance : Int) : Except String Hinter :=
  match h.point sel 0 i with
  | .error e => .error e
  | .ok none => .error "panic: nil point in move"
  | .ok (some p) =>
    if h.gs.fv.1 = 0 then
      h.setPt sel 0 i { p with Y := add32 p.Y distance, Flags := lorN p.Flags flagTouchedY }
    else if h.gs.fv.2 = 0 then
      h.setPt sel 0 i { p with X := add32 p.X distance, Flags := lorN p.Flags flagTouchedX }
    else
      let fvDotPv := sar (h.gs.fv.1 * h.gs.pv.1 + h.gs.fv.2 * h.gs.pv.2) 14
      if fvDotPv = 0 then .error "panic: integer divide by zero"
      else
        h.setPt sel 0 i
          { p with
            X := add32 p.X (trunc32 (Int.tdiv (distance * h.gs.fv.1) fvDotPv)),
            Y := add32 p.Y (trunc32 (Int.tdiv (distance * h.gs.fv.2) fvDotPv)),
            Flags := lorN p.Flags (lorN flagTouchedX flagTouchedY) }

/-- `Hinter.cvt` from hint.go: doubled index, the off-by-two bounds check
(`len < i` rather than `len ≤ i+1`), and the FUnit→pixel scaling.  The
reads past the check are Go panics, modelled as errors. -/
def Hinter.cvt (h : Hinter) (i0 : Int) : Except String Int :=
  let i := trunc32 (i0 * 2)
  if i < 0 ∨ (h.font.cvt.length : Int) < i then .ok 0
  else
    match h.font.cvt.get? i.toNat, h.font.cvt.get? (i.toNat + 1) with
    | some b0, some b1 =>
      .ok (h.font.scale (trunc32 (h.scale * toInt16 (b0 * 256 + b1))))
    | _, _ => .error "panic: cvt index out of range"

/-! ### Opcode numbering and the popCount table

The repository file declaring the `op…` constants and the `popCount` table
(opcodes.go) is not under src/; only its callers are.  Modelled from the
spec: §4.5/§6 list exactly which opcodes the interpreter implements and how
many stack elements each consumes, and the numbering is fixed by the
TrueType instruction set the source cites
(developer.apple.com/fonts/TTRefMan/RM05/Chap5.html).  `q` marks opcodes
the interpreter does not implement. -/

def opSVTCA0 : Nat := 0x00
def opSVTCA1 : Nat := 0x01
def opSPVTCA0 : Nat := 0x02
def opSPVTCA1 : Nat := 0x03
def opSFVTCA0 : Nat := 0x04
def opSFVTCA1 : Nat := 0x05
def opSPVFS : Nat := 0x0A
def opSFVFS : Nat := 0x0B
def opGPV : Nat := 0x0C
def opGFV : Nat := 0x0D
def opSFVTPV : Nat := 0x0E
def opSRP0 : Nat := 0x10
def opSRP1 : Nat := 0x11
def opSRP2 : Nat := 0x12
def opSZP0 : Nat := 0x13
def opSZP1 : Nat := 0x14
def opSZP2 : Nat := 0x15
def opSZPS : Nat := 0x16
def opSLOOP : Nat := 0x17
def opRTG : Nat := 0x18
def opRTHG : Nat := 0x19
def opSMD : Nat := 0x1A
def opELSE : Nat := 0x1B
def opJMPR : Nat := 0x1C
def opSCVTCI : Nat := 0x1D
def opSSWCI : Nat := 0x1E
def opSSW : Nat := 0x1F
def opDUP : Nat := 0x20
def opPOP : Nat := 0x21
def opCLEAR : Nat := 0x22
def opSWAP : Nat := 0x23
def opDEPTH : Nat := 0x24
def opCINDEX : Nat := 0x25
def opMINDEX : Nat := 0x26
def opLOOPCALL : Nat := 0x2A
def opCALL : Nat := 0x2B
def opFDEF : Nat := 0x2C
def opENDF : Nat := 0x2D
def opMDAP0 : Nat := 0x2E
def opMDAP1 : Nat := 0x2F
def opIUP0 : Nat := 0x30
def opIUP1 : Nat := 0x31
def opIP : Nat := 0x39
def opALIGNRP : Nat := 0x3C
def opRTDG : Nat := 0x3D
def opMIAP0 : Nat := 0x3E
def opMIAP1 : Nat := 0x3F
def opNPUSHB : Nat := 0x40
def opNPUSHW : Nat := 0x41
def opWS : Nat := 0x42
def opRS : Nat := 0x43
def opMPPEM : Nat := 0x4B
def opMPS : Nat := 0x4C
def opFLIPON : Nat := 0x4D
def opFLIPOFF : Nat := 0x4E
def opDEBUG : Nat := 0x4F
def opLT : Nat := 0x50
def opLTEQ : Nat := 0x51
def opGT : Nat := 0x52
def opGTEQ : Nat := 0x53
def opEQ : Nat := 0x54
def opNEQ : Nat := 0x55
def opODD : Nat := 0x56
def opEVEN : Nat := 0x57
def opIF : Nat := 0x58
def opEIF : Nat := 0x59
def opAND : Nat := 0x5A
def opOR : Nat := 0x5B
def opNOT : Nat := 0x5C
def opSDB : Nat := 0x5E
def opSDS : Nat := 0x5F
def opADD : Nat := 0x60
def opSUB : Nat := 0x61
def opDIV : Nat := 0x62
def opMUL : Nat := 0x63
def opABS : Nat := 0x64
def opNEG : Nat := 0x65
def opFLOOR : Nat := 0x66
def opCEILING : Nat := 0x67
def opROUND00 : Nat := 0x68
def opROUND11 : Nat := 0x6B
def opNROUND00 : Nat := 0x6C
def opNROUND11 : Nat := 0x6F
def opSROUND : Nat := 0x76
def opS45ROUND : Nat := 0x77
def opJROT : Nat := 0x78
def opJROF : Nat := 0x79
def opROFF : Nat := 0x7A
def opRUTG : Nat := 0x7C
def opRDTG : Nat := 0x7D
def opSANGW : Nat := 0x7E
def opAA : Nat := 0x7F
def opSCANCTRL : Nat := 0x85
def opGETINFO : Nat := 0x88
def opIDEF : Nat := 0x89
def opROLL : Nat := 0x8A
def opMAX : Nat := 0x8B
def opMIN : Nat := 0x8C
def opSCANTYPE : Nat := 0x8D
def opPUSHB000 : Nat := 0xB0
def opPUSHB111 : Nat := 0xB7
def opPUSHW000 : Nat := 0xB8
def opPUSHW111 : Nat := 0xBF
def opMDRP00000 : Nat := 0xC0
def opMDRP11111 : Nat := 0xDF
def opMIRP00000 : Nat := 0xE0
def opMIRP11111 : Nat := 0xFF

/-- `q` marks an unimplemented opcode in the popCount table. -/
def q : Nat := 255

/-- Modelled from the spec: the `popCount` table of opcodes.go (a file of
this repository missing from src/).  Implemented opcodes pop the number of
stack elements their dispatch case consumes before indexing below `top`;
all other opcodes are `q`-marked. -/
def popCount (b : Nat) : Nat :=
  if b ≤ 0x05 then 0                          -- SVTCA..SFVTCA
  else if b = opSPVFS ∨ b = opSFVFS then 2
  else if b = opGPV ∨ b = opGFV ∨ b = opSFVTPV then 0
  else if opSRP0 ≤ b ∧ b ≤ opSLOOP then 1     -- SRP0..SZPS, SLOOP
  else if b = opRTG ∨ b = opRTHG then 0
  else if b = opSMD then 1
  else if b = opELSE then 0
  else if b = opJMPR then 1
  else if b = opSCVTCI ∨ b = opSSWCI ∨ b = opSSW then 1
  else if b = opDUP ∨ b = opPOP then 1
  else if b = opCLEAR then 0
  else if b = opSWAP then 2
  else if b = opDEPTH then 0
  else if b = opCINDEX ∨ b = opMINDEX then 1
  else if b = opLOOPCALL then 2
  else if b = opCALL then 1
  else if b = opFDEF then 1
  else if b = opENDF then 0
  else if b = opMDAP0 ∨ b = opMDAP1 then 1
  else if b = opIUP0 ∨ b = opIUP1 then 0
  else if b = opIP then 0
  else if b = opALIGNRP then 0
  else if b = opRTDG then 0
  else if b = opMIAP0 ∨ b = opMIAP1 then 2
  else if b = opNPUSHB ∨ b = opNPUSHW then 0
  else if b = opWS then 2
  else if b = opRS then 1
  else if b = opMPPEM ∨ b = opMPS then 0
  else if b = opFLIPON ∨ b = opFLIPOFF ∨ b = opDEBUG then 0
  else if opLT ≤ b ∧ b ≤ opNEQ then 2
  else if b = opODD ∨ b = opEVEN then 1
  else if b = opIF then 1
  else if b = opEIF then 0
  else if b = opAND ∨ b = opOR then 2
  else if b = opNOT then 1
  else if b = opSDB ∨ b = opSDS then 1
  else if opADD ≤ b ∧ b ≤ opMUL then 2        -- ADD, SUB, DIV, MUL
  else if opABS ≤ b ∧ b ≤ opCEILING then 1    -- ABS, NEG, FLOOR, CEILING
  else if opROUND00 ≤ b ∧ b ≤ opNROUND11 then 1
  else if b = opSROUND ∨ b = opS45ROUND then 1
  else if b = opJROT ∨ b = opJROF then 2
  else if b = opROFF ∨ b = opRUTG ∨ b = opRDTG then 0
  else if b = opSANGW ∨ b = opAA then 1
  else if b = opSCANCTRL then 1
  else if b = opGETINFO then 1
  else if b = opIDEF then 1
  else if b = opROLL then 3
  else if b = opMAX ∨ b = opMIN then 2
  else if b = opSCANTYPE then 1
  else if opPUSHB000 ≤ b ∧ b ≤ opPUSHW111 then 0
  else if opMDRP00000 ≤ b ∧ b ≤ opMDRP11111 then 1
  else if opMIRP00000 ≤ b ∧ b ≤ opMIRP11111 then 2
  else q

/-- Fetch a program byte; every call site first checks the range. -/
def byteAt (program : List Nat) (pc : Int) : Nat := program.getD pc.toNat 0

/-- `skipInstructionPayload` from hint.go: advance `pc` over the payload of
a push instruction; `none` is the `ok = false` return. -/
def skipInstructionPayload (program : List Nat) (pc : Int) : Option Int :=
  let b := byteAt program pc
  if b = opNPUSHB then
    let pc := pc + 1
    if (program.length : Int) ≤ pc then none else some (pc + byteAt program pc)
  else if b = opNPUSHW then
    let pc := pc + 1
    if (program.length : Int) ≤ pc then none else some (pc + 2 * byteAt program pc)
  else if opPUSHB000 ≤ b ∧ b ≤ opPUSHB111 then some (pc + (b - (opPUSHB000 - 1)))
  else if opPUSHW000 ≤ b ∧ b ≤ opPUSHW111 then some (pc + 2 * (b - (opPUSHW000 - 1)))
  else some pc

/-! ### Interpreter loop state and complex opcode helpers

The locals of `Hinter.run` (`program`, `pc`, `top`, the call stack) form the
loop state; the `steps` counter is kept outside, in `MState` below, exactly
as it is a separate local in the source.  Inner loops of single opcodes are
written with an explicit fuel that equals the loop's iteration count at the
call site (each such loop in the source advances its induction variable by
at least one per iteration), so the fuel-exhausted branches mirror
unreachable code and repeat the surrounding error/exit. -/

/-- The loop state of `Hinter.run`. -/
structure LoopState where
  h : Hinter
  program : List Nat
  pc : Int
  top : Nat
  callStack : List callStackEntry

/-- Outcome of executing one dispatched instruction. -/
inductive StepOut where
  | err (e : String)
  | next (s : LoopState)

/-- Dereference the pointer returned by `Hinter.point` with no nil check
(several opcodes do this); a nil pointer is a Go panic. -/
def Hinter.pointD (h : Hinter) (sel t : Nat) (i : Int) : Except String Pt :=
  match h.point sel t i with
  | .error e => .error e
  | .ok none => .error "panic: nil point dereference"
  | .ok (some p) => .ok p

/-- Direct read of a glyph-zone point slice (IUP bypasses the zone
pointers); out of range is a Go panic. -/
def Hinter.glyphPt (h : Hinter) (t : Nat) (i : Int) : Except String Pt :=
  let pts := h.points.glyph.ofType t
  if 0 ≤ i ∧ i < (pts.size : Int) then .ok (pts.getD i.toNat ⟨0, 0, 0⟩)
  else .error "panic: point index out of range"

/-- Direct write of a glyph-zone current point; out of range is a Go
panic. -/
def Hinter.setGlyphCur (h : Hinter) (i : Int) (p : Pt) : Except String Hinter :=
  if 0 ≤ i ∧ i < (h.points.glyph.cur.size : Int) then
    .ok { h with points := { h.points with glyph :=
      { h.points.glyph with cur := setA h.points.glyph.cur i.toNat p } } }
  else .error "panic: point index out of range"

/-- The coordinate selected by `interpY`. -/
def Pt.coord (p : Pt) (interpY : Bool) : Int := if interpY then p.Y else p.X

/-- Store the coordinate selected by `interpY`. -/
def Pt.withCoord (p : Pt) (interpY : Bool) (v : Int) : Pt :=
  if interpY then { p with Y := v } else { p with X := v }

/-- The `ifu1 == ifu2` loop of `Hinter.iupInterp`. -/
def iupInterpEqLoop (interpY : Bool) (unh1 delta1 delta2 : Int) :
    Nat → Int → Hinter → Except String Hinter
  | 0, _, h => .ok h
  | fuel + 1, i, h => do
    let up ← h.glyphPt 1 i
    let xy := up.coord interpY
    let xy := if xy ≤ unh1 then add32 xy delta1 else add32 xy delta2
    let cp ← h.glyphPt 0 i
    let h ← h.setGlyphCur i (cp.withCoord interpY xy)
    iupInterpEqLoop interpY unh1 delta1 delta2 fuel (i + 1) h

/-- The scaling loop of `Hinter.iupInterp`.  The `(scaleOK, scale)` pair is
the lazily computed interpolation slope; the `int64` product
`(ifuXY − ifu1) · scale` can overflow and wraps. -/
def iupInterpScaleLoop (interpY : Bool) (unh1 unh2 delta1 delta2 ifu1 ifu2 : Int) :
    Nat → Int → Bool → Int → Hinter → Except String Hinter
  | 0, _, _, _, h => .ok h
  | fuel + 1, i, scaleOK, scale, h => do
    let up ← h.glyphPt 1 i
    let fp ← h.glyphPt 2 i
    let xy := up.coord interpY
    let ifuXY := fp.coord interpY
    let st :=
      if xy ≤ unh1 then (scaleOK, scale, add32 xy delta1)
      else if unh2 ≤ xy then (scaleOK, scale, add32 xy delta2)
      else
        let scaleOK' := true
        let scale' :=
          if scaleOK then scale
          else
            let numer := (sub32 (add32 unh2 delta2) (add32 unh1 delta1)) * 65536
            let denom := sub32 ifu2 ifu1
            let numer := if 0 ≤ numer then numer + Int.tdiv denom 2 else numer - Int.tdiv denom 2
            Int.tdiv numer denom
        let numer := trunc64 (sub32 ifuXY ifu1 * scale')
        let numer := trunc64 (if 0 ≤ numer then numer + 32768 else numer - 32768)
        (scaleOK', scale', add32 (add32 unh1 delta1) (trunc32 (Int.tdiv numer 65536)))
    let cp ← h.glyphPt 0 i
    let h ← h.setGlyphCur i (cp.withCoord interpY st.2.2)
    iupInterpScaleLoop interpY unh1 unh2 delta1 delta2 ifu1 ifu2 fuel (i + 1) st.1 st.2.1 h

/-- `Hinter.iupInterp` from hint.go.  Note the Go expression
`unh2+delta2-unh1-delta1` associates as `((unh2+delta2)-unh1)-delta1`;
it is reassociated here as `(unh2+delta2)-(unh1+delta1)`, which is equal
modulo the 32-bit wrap performed at each step. -/
def Hinter.iupInterp (h : Hinter) (interpY : Bool) (p1 p2 ref1 ref2 : Int) :
    Except String Hinter :=
  if p2 < p1 then .ok h
  else if (h.points.glyph.cur.size : Int) ≤ ref1 ∨ (h.points.glyph.cur.size : Int) ≤ ref2 then
    .ok h
  else do
    let f1 ← h.glyphPt 2 ref1
    let f2 ← h.glyphPt 2 ref2
    let ifu1 := f1.coord interpY
    let ifu2 := f2.coord interpY
    let (ifu1, ifu2, ref1, ref2) :=
      if ifu2 < ifu1 then (ifu2, ifu1, ref2, ref1) else (ifu1, ifu2, ref1, ref2)
    let u1 ← h.glyphPt 1 ref1
    let u2 ← h.glyphPt 1 ref2
    let c1 ← h.glyphPt 0 ref1
    let c2 ← h.glyphPt 0 ref2
    let unh1 := u1.coord interpY
    let unh2 := u2.coord interpY
    let delta1 := sub32 (c1.coord interpY) unh1
    let delta2 := sub32 (c2.coord interpY) unh2
    if ifu1 = ifu2 then
      iupInterpEqLoop interpY unh1 delta1 delta2 (p2 + 1 - p1).toNat p1 h
    else
      iupInterpScaleLoop interpY unh1 unh2 delta1 delta2 ifu1 ifu2
        (p2 + 1 - p1).toNat p1 false 0 h

/-- The pixel loop of `Hinter.iupShift`. -/
def iupShiftLoop (interpY : Bool) (p : Int) (delta : Int) :
    Nat → Int → Hinter → Except String Hinter
  | 0, _, h => .ok h
  | fuel + 1, i, h =>
    if i = p then iupShiftLoop interpY p delta fuel (i + 1) h
    else do
      let cp ← h.glyphPt 0 i
      let h ← h.setGlyphCur i (cp.withCoord interpY (add32 (cp.coord interpY) delta))
      iupShiftLoop interpY p delta fuel (i + 1) h

/-- `Hinter.iupShift` from hint.go (`p2` exclusive). -/
def Hinter.iupShift (h : Hinter) (interpY : Bool) (p1 p2 p : Int) : Except String Hinter := do
  let cp ← h.glyphPt 0 p
  let up ← h.glyphPt 1 p
  let delta := sub32 (cp.coord interpY) (up.coord interpY)
  if delta = 0 then .ok h
  else iupShiftLoop interpY p delta (p2 - p1).toNat p1 h

/-- The `for i < end && untouched` skip loop inside `opIUP`. -/
def iupSkip (mask : Nat) (endd : Int) : Nat → Int → Hinter → Except String Int
  | 0, i, _ => .ok i
  | fuel + 1, i, h =>
    if i < endd then do
      let p ← h.glyphPt 0 i
      if landN p.Flags mask = 0 then iupSkip mask endd fuel (i + 1) h else .ok i
    else .ok i

/-- The touched-point scan inside `opIUP`, interpolating each run between
touched references. -/
def iupScan (interpY : Bool) (mask : Nat) (endd : Int) :
    Nat → Int → Int → Hinter → Except String (Hinter × Int)
  | 0, _, curT, h => .ok (h, curT)
  | fuel + 1, i, curT, h =>
    if i < endd then do
      let p ← h.glyphPt 0 i
      if landN p.Flags mask ≠ 0 then do
        let h ← h.iupInterp interpY (curT + 1) (i - 1) curT i
        iupScan interpY mask endd fuel (i + 1) i h
      else iupScan interpY mask endd fuel (i + 1) curT h
    else .ok (h, curT)

/-- One contour's worth of `opIUP`: the outer `for` runs its body at most
once to completion because the scan drives `i` to `end`. -/
def iupContour (h : Hinter) (interpY : Bool) (mask : Nat) (prevEnd endd : Int) :
    Except String Hinter :=
  if ¬ prevEnd < endd then .ok h
  else do
    let i ← iupSkip mask endd (endd - prevEnd).toNat prevEnd h
    if i = endd then .ok h
    else do
      let firstTouched := i
      let hc ← iupScan interpY mask endd (endd - (i + 1)).toNat (i + 1) i h
      let h := hc.1
      let curTouched := hc.2
      if curTouched = firstTouched then h.iupShift interpY prevEnd endd curTouched
      else do
        let h ← h.iupInterp interpY (curTouched + 1) (endd - 1) curTouched firstTouched
        if 0 < firstTouched then
          h.iupInterp interpY prevEnd (firstTouched - 1) curTouched firstTouched
        else .ok h

/-- The contour loop of `opIUP` (`prevEnd` starts at 0 and becomes each
contour's end). -/
def iupContours (interpY : Bool) (mask : Nat) : List Int → Int → Hinter → Except String Hinter
  | [], _, h => .ok h
  | e :: rest, prevEnd, h => do
    let h ← iupContour h interpY mask prevEnd e
    iupContours interpY mask rest e h

/-- `opIUP0`/`opIUP1`: `opIUP0` interpolates Y (mask `flagTouchedY`). -/
def execIUP (s : LoopState) (iupY : Bool) : StepOut :=
  let mask := if iupY then flagTouchedY else flagTouchedX
  match iupContours iupY mask s.h.ends 0 s.h with
  | .error e => .err e
  | .ok h => .next { s with h := h, pc := s.pc + 1 }

/-- The per-point loop of `opIP`.  The reference points `rp1`'s old/current
positions are reread through their pointers on every iteration, as the Go
pointers observe in-place moves. -/
def ipLoop (pointType : Nat) (oldRange curRange : Int) :
    Nat → LoopState → Except String LoopState
  | 0, s => .ok s
  | fuel + 1, s => do
    let top := s.top - 1
    let i := stget s.h.stack top
    let p ← s.h.pointD 2 pointType i
    let oldP ← s.h.pointD 0 pointType s.h.gs.rp1
    let oldDist := dotProduct (sub32 p.X oldP.X) (sub32 p.Y oldP.Y) s.h.gs.dv
    let p2 ← s.h.pointD 2 0 i
    let curP ← s.h.pointD 0 0 s.h.gs.rp1
    let curDist := dotProduct (sub32 p2.X curP.X) (sub32 p2.Y curP.Y) s.h.gs.pv
    let newDist : Int :=
      if oldDist ≠ 0 then
        if oldRange ≠ 0 then
          trunc32 (Int.tdiv (oldDist * curRange + Int.tdiv oldRange 2) oldRange)
        else neg32 oldDist
      else 0
    let h ← s.h.move 2 i (sub32 newDist curDist)
    ipLoop pointType oldRange curRange fuel { s with h := h, top := top }

/-- `opIP`.  A graphics-state `loop` below zero would make the Go `for`
loop diverge; `loop` is only ever 0, 1 or a positive `SLOOP` operand, and
the fuel `loop.toNat` agrees with the Go iteration count on that range. -/
def execIP (s : LoopState) : StepOut :=
  if (s.top : Int) < s.h.gs.loop then .err "truetype: hinting: stack underflow"
  else
    let twilight := s.h.gs.zp0 = 0 ∨ s.h.gs.zp1 = 0 ∨ s.h.gs.zp2 = 0
    let pointType := if twilight then 1 else 2
    match (do
      let p ← s.h.pointD 1 pointType s.h.gs.rp2
      let oldP ← s.h.pointD 0 pointType s.h.gs.rp1
      let oldRange := dotProduct (sub32 p.X oldP.X) (sub32 p.Y oldP.Y) s.h.gs.dv
      let p2 ← s.h.pointD 1 0 s.h.gs.rp2
      let curP ← s.h.pointD 0 0 s.h.gs.rp1
      let curRange := dotProduct (sub32 p2.X curP.X) (sub32 p2.Y curP.Y) s.h.gs.pv
      ipLoop pointType oldRange curRange s.h.gs.loop.toNat s :
        Except String LoopState) with
    | .error e => .err e
    | .ok s' =>
      .next { s' with h := { s'.h with gs := { s'.h.gs with loop := 1 } }, pc := s'.pc + 1 }

/-- The per-point loop of `opALIGNRP`; the reference point is reread through
its pointer on every iteration. -/
def alignrpLoop : Nat → LoopState → Except String LoopState
  | 0, s => .ok s
  | fuel + 1, s => do
    let top := s.top - 1
    let p ← match s.h.point 1 0 (stget s.h.stack top) with
      | .error e => .error e
      | .ok none => .error "truetype: hinting: point out of range"
      | .ok (some p) => .ok p
    let ref ← s.h.pointD 0 0 s.h.gs.rp0
    let h ← s.h.move 1 (stget s.h.stack top)
      (neg32 (dotProduct (sub32 p.X ref.X) (sub32 p.Y ref.Y) s.h.gs.pv))
    alignrpLoop fuel { s with h := h, top := top }

/-- `opALIGNRP`. -/
def execALIGNRP (s : LoopState) : StepOut :=
  if (s.top : Int) < s.h.gs.loop then .err "truetype: hinting: stack underflow"
  else
    match s.h.point 0 0 s.h.gs.rp0 with
    | .error e => .err e
    | .ok none => .err "truetype: hinting: point out of range"
    | .ok (some _) =>
      match alignrpLoop s.h.gs.loop.toNat s with
      | .error e => .err e
      | .ok s' =>
        .next { s' with h := { s'.h with gs := { s'.h.gs with loop := 1 } }, pc := s'.pc + 1 }

/-- `opMDAP0`/`opMDAP1`. -/
def execMDAP (s : LoopState) (isRound : Bool) : StepOut :=
  let top := s.top - 1
  let i := stget s.h.stack top
  match s.h.point 0 0 i with
  | .error e => .err e
  | .ok none => .err "truetype: hinting: point out of range"
  | .ok (some p) =>
    let distance : Int :=
      if isRound then
        let d := dotProduct p.X p.Y s.h.gs.pv
        sub32 (round s.h.gs d) d
      else 0
    match s.h.move 0 i distance with
    | .error e => .err e
    | .ok h =>
      .next { s with
        h := { h with gs := { h.gs with rp0 := i, rp1 := i } },
        top := top, pc := s.pc + 1 }

/-- `opMIAP0`/`opMIAP1`. -/
def execMIAP (s : LoopState) (isRound : Bool) : StepOut :=
  let top := s.top - 2
  let i := stget s.h.stack top
  match (do
    let distance ← s.h.cvt (stget s.h.stack (top + 1))
    let h ← (if s.h.gs.zp0 = 0 then do
        let p ← s.h.pointD 0 1 i
        let p := { p with
          X := trunc32 (sar (distance * s.h.gs.fv.1) 14),
          Y := trunc32 (sar (distance * s.h.gs.fv.2) 14) }
        let h ← s.h.setPt 0 1 i p
        let _ ← h.pointD 0 0 i
        h.setPt 0 0 i p
      else .ok s.h)
    let p ← h.pointD 0 0 i
    let oldDist := dotProduct p.X p.Y h.gs.pv
    let distance :=
      if isRound then
        let d := if h.gs.controlValueCutIn < absF (sub32 distance oldDist) then oldDist
          else distance
        round h.gs d
      else distance
    let h ← h.move 0 i (sub32 distance oldDist)
    (.ok h : Except String Hinter)) with
  | .error e => .err e
  | .ok h =>
    .next { s with
      h := { h with gs := { h.gs with rp0 := i, rp1 := i } },
      top := top, pc := s.pc + 1 }

/-- `opMDRP*` (32 variants; bits 4/8/16 of the opcode are the round,
minimum-distance and set-rp0 flags). -/
def execMDRP (s : LoopState) (opcode : Nat) : StepOut :=
  let top := s.top - 1
  let i := stget s.h.stack top
  match s.h.point 0 0 s.h.gs.rp0, s.h.point 1 0 i with
  | .error e, _ => .err e
  | _, .error e => .err e
  | .ok none, _ => .err "truetype: hinting: point out of range"
  | _, .ok none => .err "truetype: hinting: point out of range"
  | .ok (some ref), .ok (some p) =>
    match (do
      let oldDist ←
        if s.h.gs.zp0 = 0 ∨ s.h.gs.zp1 = 0 then do
          let p0 ← s.h.pointD 1 1 i
          let p1 ← s.h.pointD 0 1 s.h.gs.rp0
          (.ok (dotProduct (sub32 p0.X p1.X) (sub32 p0.Y p1.Y) s.h.gs.dv) :
            Except String Int)
        else do
          let p0 ← s.h.pointD 1 2 i
          let p1 ← s.h.pointD 0 2 s.h.gs.rp0
          let d := dotProduct (sub32 p0.X p1.X) (sub32 p0.Y p1.Y) s.h.gs.dv
          .ok (s.h.font.scale (trunc32 (s.h.scale * d)))
      (.ok oldDist : Except String Int)) with
    | .error e => .err e
    | .ok oldDist0 =>
      let oldDist :=
        if absF (sub32 oldDist0 s.h.gs.singleWidth) < s.h.gs.singleWidthCutIn then
          if 0 ≤ oldDist0 then s.h.gs.singleWidth else neg32 s.h.gs.singleWidth
        else oldDist0
      let distance := if (opcode / 4) % 2 = 1 then round s.h.gs oldDist else oldDist
      let distance :=
        if (opcode / 8) % 2 = 1 then
          if 0 ≤ oldDist then
            if distance < s.h.gs.minDist then s.h.gs.minDist else distance
          else
            if neg32 s.h.gs.minDist < distance then neg32 s.h.gs.minDist else distance
        else distance
      let rp0 := if (opcode / 16) % 2 = 1 then i else s.h.gs.rp0
      let gs := { s.h.gs with rp0 := rp0, rp1 := rp0, rp2 := i }
      let h := { s.h with gs := gs }
      let projDist := dotProduct (sub32 p.X ref.X) (sub32 p.Y ref.Y) h.gs.pv
      match h.move 1 i (sub32 distance projDist) with
      | .error e => .err e
      | .ok h => .next { s with h := h, top := top, pc := s.pc + 1 }

/-- `opMIRP*` (32 variants). -/
def execMIRP (s : LoopState) (opcode : Nat) : StepOut :=
  let top := s.top - 2
  let i := stget s.h.stack top
  match (do
    let cvtDist0 ← s.h.cvt (stget s.h.stack (top + 1))
    let cvtDist :=
      if absF (sub32 cvtDist0 s.h.gs.singleWidth) < s.h.gs.singleWidthCutIn then
        if 0 ≤ cvtDist0 then s.h.gs.singleWidth else neg32 s.h.gs.singleWidth
      else cvtDist0
    if s.h.gs.zp1 = 0 then
      (.error "truetype: hinting: unimplemented twilight point adjustment" :
        Except String (Int × Int))
    else do
      let ref ← match s.h.point 0 1 s.h.gs.rp0 with
        | .error e => .error e
        | .ok none => .error "truetype: hinting: point out of range"
        | .ok (some p) => .ok p
      let p ← match s.h.point 1 1 i with
        | .error e => .error e
        | .ok none => .error "truetype: hinting: point out of range"
        | .ok (some p) => .ok p
      let oldDist := dotProduct (sub32 p.X ref.X) (sub32 p.Y ref.Y) s.h.gs.dv
      let ref ← match s.h.point 0 0 s.h.gs.rp0 with
        | .error e => .error e
        | .ok none => .error "truetype: hinting: point out of range"
        | .ok (some p) => .ok p
      let p ← match s.h.point 1 0 i with
        | .error e => .error e
        | .ok none => .error "truetype: hinting: point out of range"
        | .ok (some p) => .ok p
      let curDist := dotProduct (sub32 p.X ref.X) (sub32 p.Y ref.Y) s.h.gs.pv
      let cvtDist :=
        if s.h.gs.autoFlip ∧ lxor32 oldDist cvtDist < 0 then neg32 cvtDist else cvtDist
      let distance := if (opcode / 4) % 2 = 1 then round s.h.gs oldDist else oldDist
      let distance :=
        if (opcode / 8) % 2 = 1 then
          if 0 ≤ oldDist then
            if distance < s.h.gs.minDist then s.h.gs.minDist else distance
          else
            if neg32 s.h.gs.minDist < distance then neg32 s.h.gs.minDist else distance
        else distance
      let _ := cvtDist
      .ok (distance, curDist)) with
  | .error e => .err e
  | .ok dc =>
    let rp0 := if (opcode / 16) % 2 = 1 then i else s.h.gs.rp0
    let gs := { s.h.gs with rp0 := rp0, rp1 := rp0, rp2 := i }
    let h := { s.h with gs := gs }
    match h.move 1 i (sub32 dc.1 dc.2) with
    | .error e => .err e
    | .ok h => .next { s with h := h, top := top, pc := s.pc + 1 }

/-- The `fdefloop` of `opFDEF`: scan to the matching `ENDF`, skipping push
payloads; the body `program[startPC : pc+1]` is recorded in the function
table.  `pc` strictly increases, so fuel `len + 1` never runs out; the
fuel-0 branch repeats the out-of-program error. -/
def fdefScan (s : LoopState) (startPC : Int) : Nat → Int → StepOut
  | 0, _ => .err "truetype: hinting: unbalanced FDEF"
  | fuel + 1, pc =>
    let pc := pc + 1
    if (s.program.length : Int) ≤ pc then .err "truetype: hinting: unbalanced FDEF"
    else
      let b := byteAt s.program pc
      if b = opFDEF then .err "truetype: hinting: nested FDEF"
      else if b = opENDF then
        let top := s.top - 1
        let fnum := stget s.h.stack top
        let body := (s.program.drop startPC.toNat).take (pc + 1 - startPC).toNat
        .next { s with
          h := { s.h with functions := (fnum, body) :: s.h.functions },
          top := top, pc := pc + 1 }
      else
        match skipInstructionPayload s.program pc with
        | none => .err "truetype: hinting: unbalanced FDEF"
        | some pc' => fdefScan s startPC fuel pc'

/-- The `ifelseloop` shared by `opIF` (with a false condition) and `opELSE`:
skip to the branch point.  `fromIF` is Go's `opcode == 0`. -/
def ifelseScan (s : LoopState) (fromIF : Bool) : Nat → Int → Int → StepOut
  | 0, _, _ => .err "truetype: hinting: unbalanced IF or ELSE"
  | fuel + 1, pc, depth =>
    let pc := pc + 1
    if (s.program.length : Int) ≤ pc then .err "truetype: hinting: unbalanced IF or ELSE"
    else
      let b := byteAt s.program pc
      if b = opIF then ifelseScan s fromIF fuel pc (depth + 1)
      else if b = opELSE then
        if depth = 0 ∧ fromIF then .next { s with pc := pc + 1 }
        else ifelseScan s fromIF fuel pc depth
      else if b = opEIF then
        if depth - 1 < 0 then .next { s with pc := pc + 1 }
        else ifelseScan s fromIF fuel pc (depth - 1)
      else
        match skipInstructionPayload s.program pc with
        | none => .err "truetype: hinting: unbalanced IF or ELSE"
        | some pc' => ifelseScan s fromIF fuel pc' depth

/-- The element loop of the `push` block: read `count` bytes or words at
`pc` onto the stack. -/
def pushLoop (program : List Nat) (width : Nat) :
    Nat → Int → Nat → Array Int → (Int × Nat × Array Int)
  | 0, pc, top, st => (pc, top, st)
  | count + 1, pc, top, st =>
    let v : Int :=
      if width = 1 then (byteAt program pc : Int)
      else toInt8 (byteAt program pc) * 256 + (byteAt program (pc + 1) : Int)
    pushLoop program width count (pc + width) (top + 1) (setA st top v)

/-- The `push` block of `Hinter.run`: `param0` is the adjusted opcode
(`0` for NPUSHB, `0x80` for NPUSHW, count or `0x80 + count` for
PUSHB/PUSHW). -/
def execPush (s : LoopState) (param0 : Nat) : StepOut :=
  let width : Nat := if 128 ≤ param0 then 2 else 1
  let param : Nat := if 128 ≤ param0 then param0 - 128 else param0
  let pcParam : Option (Int × Nat) :=
    if param = 0 then
      let pc := s.pc + 1
      if (s.program.length : Int) ≤ pc then none
      else some (pc + 1, byteAt s.program pc)
    else some (s.pc + 1, param)
  match pcParam with
  | none => .err "truetype: hinting: insufficient data"
  | some (pc, count) =>
    if s.h.stack.size < s.top + count then .err "truetype: hinting: stack overflow"
    else if (s.program.length : Int) < pc + (width : Int) * (count : Int) then
      .err "truetype: hinting: insufficient data"
    else
      let r := pushLoop s.program width count pc s.top s.h.stack
      .next { s with h := { s.h with stack := r.2.2 }, pc := r.1, top := r.2.1 }

/-- The overlapped forward copy of `opMINDEX`
(`copy(stack[top-1-x:top-1], stack[top-x:top])`). -/
def mindexCopy : Nat → Nat → Nat → Array Int → Array Int
  | 0, _, _, st => st
  | n + 1, dst, src, st => mindexCopy n (dst + 1) (src + 1) (setA st dst (stget st src))

/-- Lookup in the function table (Go map read `h.functions[...]`). -/
def lookupFn (fns : List (Int × List Nat)) (k : Int) : Option (List Nat) :=
  match fns with
  | [] => none
  | e :: rest => if e.1 = k then some e.2 else lookupFn rest k

/-- Replace the graphics state of a loop state. -/
def withGS (s : LoopState) (gs : graphicsState) : LoopState :=
  { s with h := { s.h with gs := gs } }

/-- Fall through the bottom of the dispatch switch: `pc++`. -/
def adv (s : LoopState) : LoopState := { s with pc := s.pc + 1 }

/-- One dispatched instruction of `Hinter.run`'s main loop, translated case
by case from the `switch opcode` in hint.go.  `opcode` is the byte at `pc`;
the popCount guards have already been applied by `execIns`. -/
def execDispatch (s : LoopState) (opcode : Nat) : StepOut :=
  let h := s.h
  let gs := h.gs
  let st := h.stack
  let top := s.top
  if opcode = opSVTCA0 then
    .next (adv (withGS s { gs with pv := (0, 0x4000), fv := (0, 0x4000), dv := (0, 0x4000) }))
  else if opcode = opSVTCA1 then
    .next (adv (withGS s { gs with pv := (0x4000, 0), fv := (0x4000, 0), dv := (0x4000, 0) }))
  else if opcode = opSPVTCA0 then
    .next (adv (withGS s { gs with pv := (0, 0x4000), dv := (0, 0x4000) }))
  else if opcode = opSPVTCA1 then
    .next (adv (withGS s { gs with pv := (0x4000, 0), dv := (0x4000, 0) }))
  else if opcode = opSFVTCA0 then
    .next (adv (withGS s { gs with fv := (0, 0x4000) }))
  else if opcode = opSFVTCA1 then
    .next (adv (withGS s { gs with fv := (0x4000, 0) }))
  else if opcode = opSPVFS then
    let top := top - 2
    .next (adv { withGS s { gs with
      pv := (trunc16 (stget st top), trunc16 (stget st (top + 1))) } with top := top })
  else if opcode = opSFVFS then
    let top := top - 2
    .next (adv { withGS s { gs with
      fv := (trunc16 (stget st top), trunc16 (stget st (top + 1))) } with top := top })
  else if opcode = opGPV then
    if st.size ≤ top + 1 then .err "truetype: hinting: stack overflow"
    else
      .next (adv { s with
        h := { h with stack := setA (setA st top gs.pv.1) (top + 1) gs.pv.2 },
        top := top + 2 })
  else if opcode = opGFV then
    if st.size ≤ top + 1 then .err "truetype: hinting: stack overflow"
    else
      .next (adv { s with
        h := { h with stack := setA (setA st top gs.fv.1) (top + 1) gs.fv.2 },
        top := top + 2 })
  else if opcode = opSFVTPV then
    .next (adv (withGS s { gs with fv := gs.pv }))
  else if opcode = opSRP0 ∨ opcode = opSRP1 ∨ opcode = opSRP2 then
    let top := top - 1
    let v := stget st top
    let gs := if opcode = opSRP0 then { gs with rp0 := v }
      else if opcode = opSRP1 then { gs with rp1 := v } else { gs with rp2 := v }
    .next (adv { withGS s gs with top := top })
  else if opcode = opSZP0 ∨ opcode = opSZP1 ∨ opcode = opSZP2 then
    let top := top - 1
    let v := stget st top
    let gs := if opcode = opSZP0 then { gs with zp0 := v }
      else if opcode = opSZP1 then { gs with zp1 := v } else { gs with zp2 := v }
    .next (adv { withGS s gs with top := top })
  else if opcode = opSZPS then
    let top := top - 1
    let v := stget st top
    .next (adv { withGS s { gs with zp0 := v, zp1 := v, zp2 := v } with top := top })
  else if opcode = opSLOOP then
    let top := top - 1
    let v := stget st top
    if v ≤ 0 then .err "truetype: hinting: invalid data"
    else .next (adv { withGS s { gs with loop := v } with top := top })
  else if opcode = opRTG then
    .next (adv (withGS s { gs with roundPeriod := 64, roundPhase := 0, roundThreshold := 32 }))
  else if opcode = opRTHG then
    .next (adv (withGS s { gs with roundPeriod := 64, roundPhase := 32, roundThreshold := 32 }))
  else if opcode = opSMD then
    let top := top - 1
    .next (adv { withGS s { gs with minDist := stget st top } with top := top })
  else if opcode = opELSE then
    ifelseScan s false (s.program.length + 1) s.pc 0
  else if opcode = opJMPR then
    let top := top - 1
    .next { s with top := top, pc := s.pc + stget st top }
  else if opcode = opSCVTCI then
    let top := top - 1
    .next (adv { withGS s { gs with controlValueCutIn := stget st top } with top := top })
  else if opcode = opSSWCI then
    let top := top - 1
    .next (adv { withGS s { gs with singleWidthCutIn := stget st top } with top := top })
  else if opcode = opSSW then
    let top := top - 1
    .next (adv { withGS s
      { gs with singleWidth := h.font.scale (trunc32 (h.scale * stget st top)) } with
      top := top })
  else if opcode = opDUP then
    if st.size ≤ top then .err "truetype: hinting: stack overflow"
    else
      .next (adv { s with
        h := { h with stack := setA st top (stget st (top - 1)) },
        top := top + 1 })
  else if opcode = opPOP then
    .next (adv { s with top := top - 1 })
  else if opcode = opCLEAR then
    .next (adv { s with top := 0 })
  else if opcode = opSWAP then
    .next (adv { s with h := { h with
      stack := setA (setA st (top - 1) (stget st (top - 2))) (top - 2) (stget st (top - 1)) } })
  else if opcode = opDEPTH then
    if st.size ≤ top then .err "truetype: hinting: stack overflow"
    else
      .next (adv { s with h := { h with stack := setA st top (top : Int) }, top := top + 1 })
  else if opcode = opCINDEX ∨ opcode = opMINDEX then
    let x := stget st (top - 1)
    if x ≤ 0 ∨ (top : Int) ≤ x then .err "truetype: hinting: invalid data"
    else
      let st1 := setA st (top - 1) (stget st (top - 1 - x.toNat))
      if opcode = opMINDEX then
        .next (adv { s with
          h := { h with stack := mindexCopy x.toNat (top - 1 - x.toNat) (top - x.toNat) st1 },
          top := top - 1 })
      else .next (adv { s with h := { h with stack := st1 } })
  else if opcode = opLOOPCALL ∨ opcode = opCALL then
    if 32 ≤ s.callStack.length then .err "truetype: hinting: call stack overflow"
    else
      let top := top - 1
      match lookupFn h.functions (stget st top) with
      | none => .err "truetype: hinting: undefined function"
      | some f =>
        if opcode = opLOOPCALL then
          let top := top - 1
          let cnt := stget st top
          if cnt = 0 then .next (adv { s with top := top })
          else
            .next { s with
              program := f, pc := 0, top := top,
              callStack := ⟨s.program, s.pc, cnt⟩ :: s.callStack }
        else
          .next { s with
            program := f, pc := 0, top := top,
            callStack := ⟨s.program, s.pc, 1⟩ :: s.callStack }
  else if opcode = opFDEF then
    fdefScan s (s.pc + 1) (s.program.length + 1) s.pc
  else if opcode = opENDF then
    match s.callStack with
    | [] => .err "truetype: hinting: call stack underflow"
    | e :: rest =>
      let lc := sub32 e.loopCount 1
      if lc ≠ 0 then
        .next { s with callStack := { e with loopCount := lc } :: rest, pc := 0 }
      else
        .next { s with program := e.program, pc := e.pc + 1, callStack := rest }
  else if opcode = opMDAP0 ∨ opcode = opMDAP1 then
    execMDAP s (opcode = opMDAP1)
  else if opcode = opIUP0 ∨ opcode = opIUP1 then
    execIUP s (opcode = opIUP0)
  else if opcode = opIP then
    execIP s
  else if opcode = opALIGNRP then
    execALIGNRP s
  else if opcode = opRTDG then
    .next (adv (withGS s { gs with roundPeriod := 32, roundPhase := 0, roundThreshold := 16 }))
  else if opcode = opMIAP0 ∨ opcode = opMIAP1 then
    execMIAP s (opcode = opMIAP1)
  else if opcode = opNPUSHB then
    execPush s 0
  else if opcode = opNPUSHW then
    execPush s 128
  else if opcode = opWS then
    let top := top - 2
    let i := stget st top
    if i < 0 ∨ (h.store.size : Int) ≤ i then .err "truetype: hinting: invalid data"
    else
      .next (adv { s with
        h := { h with store := setA h.store i.toNat (stget st (top + 1)) }, top := top })
  else if opcode = opRS then
    let i := stget st (top - 1)
    if i < 0 ∨ (h.store.size : Int) ≤ i then .err "truetype: hinting: invalid data"
    else
      .next (adv { s with h := { h with stack := setA st (top - 1) (h.store.getD i.toNat 0) } })
  else if opcode = opMPPEM ∨ opcode = opMPS then
    if st.size ≤ top then .err "truetype: hinting: stack overflow"
    else
      .next (adv { s with h := { h with stack := setA st top (sar h.scale 6) }, top := top + 1 })
  else if opcode = opFLIPON ∨ opcode = opFLIPOFF then
    .next (adv (withGS s { gs with autoFlip := opcode = opFLIPON }))
  else if opcode = opDEBUG then
    .next (adv s)
  else if opLT ≤ opcode ∧ opcode ≤ opNEQ then
    let top := top - 1
    let a := stget st (top - 1)
    let b := stget st top
    let r : Bool :=
      if opcode = opLT then a < b
      else if opcode = opLTEQ then a ≤ b
      else if opcode = opGT then b < a
      else if opcode = opGTEQ then b ≤ a
      else if opcode = opEQ then a = b
      else ¬ a = b
    .next (adv { s with h := { h with stack := setA st (top - 1) (bool2int32 r) }, top := top })
  else if opcode = opODD ∨ opcode = opEVEN then
    let v := sar (round gs (stget st (top - 1))) 6
    let r := lxor32 (land32 v 1) (if opcode = opODD then 0 else 1)
    .next (adv { s with h := { h with stack := setA st (top - 1) r } })
  else if opcode = opIF then
    let top := top - 1
    if stget st top = 0 then ifelseScan { s with top := top } true (s.program.length + 1) s.pc 0
    else .next (adv { s with top := top })
  else if opcode = opEIF then
    .next (adv s)
  else if opcode = opAND then
    let top := top - 1
    let r := bool2int32 (¬ stget st (top - 1) = 0 ∧ ¬ stget st top = 0)
    .next (adv { s with h := { h with stack := setA st (top - 1) r }, top := top })
  else if opcode = opOR then
    let top := top - 1
    let r := bool2int32 (¬ lor32 (stget st (top - 1)) (stget st top) = 0)
    .next (adv { s with h := { h with stack := setA st (top - 1) r }, top := top })
  else if opcode = opNOT then
    .next (adv { s with h := { h with
      stack := setA st (top - 1) (bool2int32 (stget st (top - 1) = 0)) } })
  else if opcode = opSDB then
    let top := top - 1
    .next (adv { withGS s { gs with deltaBase := stget st top } with top := top })
  else if opcode = opSDS then
    let top := top - 1
    .next (adv { withGS s { gs with deltaShift := stget st top } with top := top })
  else if opcode = opADD then
    let top := top - 1
    .next (adv { s with h := { h with
      stack := setA st (top - 1) (add32 (stget st (top - 1)) (stget st top)) }, top := top })
  else if opcode = opSUB then
    let top := top - 1
    .next (adv { s with h := { h with
      stack := setA st (top - 1) (sub32 (stget st (top - 1)) (stget st top)) }, top := top })
  else if opcode = opDIV then
    let top := top - 1
    if stget st top = 0 then .err "truetype: hinting: division by zero"
    else
      .next (adv { s with h := { h with
        stack := setA st (top - 1) (divF (stget st (top - 1)) (stget st top)) }, top := top })
  else if opcode = opMUL then
    let top := top - 1
    .next (adv { s with h := { h with
      stack := setA st (top - 1) (mulF (stget st (top - 1)) (stget st top)) }, top := top })
  else if opcode = opABS then
    let v := stget st (top - 1)
    if v < 0 then .next (adv { s with h := { h with stack := setA st (top - 1) (neg32 v) } })
    else .next (adv s)
  else if opcode = opNEG then
    .next (adv { s with h := { h with stack := setA st (top - 1) (neg32 (stget st (top - 1))) } })
  else if opcode = opFLOOR then
    .next (adv { s with h := { h with
      stack := setA st (top - 1) (land32 (stget st (top - 1)) (-64)) } })
  else if opcode = opCEILING then
    .next (adv { s with h := { h with
      stack := setA st (top - 1) (land32 (add32 (stget st (top - 1)) 63) (-64)) } })
  else if opROUND00 ≤ opcode ∧ opcode ≤ opROUND11 then
    .next (adv { s with h := { h with
      stack := setA st (top - 1) (round gs (stget st (top - 1))) } })
  else if opNROUND00 ≤ opcode ∧ opcode ≤ opNROUND11 then
    .next (adv s)
  else if opcode = opSROUND ∨ opcode = opS45ROUND then
    let top := top - 1
    let x := stget st top
    let period0 : Int :=
      if land32 (sar x 6) 3 = 0 then 32
      else if land32 (sar x 6) 3 = 2 then 128
      else 64
    let period := if opcode = opS45ROUND then Int.tdiv (trunc32 (period0 * 46341)) 65536
      else period0
    let phase := Int.tdiv (trunc32 (period * land32 (sar x 4) 3)) 4
    let threshold :=
      if ¬ land32 x 15 = 0 then Int.tdiv (trunc32 (period * (land32 x 15 - 4))) 8
      else sub32 period 1
    .next (adv { withGS s { gs with
      roundPeriod := period, roundPhase := phase, roundThreshold := threshold } with
      top := top })
  else if opcode = opJROT then
    let top := top - 2
    if ¬ stget st (top + 1) = 0 then .next { s with top := top, pc := s.pc + stget st top }
    else .next (adv { s with top := top })
  else if opcode = opJROF then
    let top := top - 2
    if stget st (top + 1) = 0 then .next { s with top := top, pc := s.pc + stget st top }
    else .next (adv { s with top := top })
  else if opcode = opROFF then
    .next (adv (withGS s { gs with roundPeriod := 0, roundPhase := 0, roundThreshold := 0 }))
  else if opcode = opRUTG then
    .next (adv (withGS s { gs with roundPeriod := 64, roundPhase := 0, roundThreshold := 63 }))
  else if opcode = opRDTG then
    .next (adv (withGS s { gs with roundPeriod := 64, roundPhase := 0, roundThreshold := 0 }))
  else if opcode = opSANGW ∨ opcode = opAA then
    .next (adv { s with top := top - 1 })
  else if opcode = opSCANCTRL then
    .next (adv { s with top := top - 1 })
  else if opcode = opGETINFO then
    let x := stget st (top - 1)
    let res : Int := 0
    let res := if ¬ land32 x 1 = 0 then lor32 res 35 else res
    let res := if ¬ land32 x 32 = 0 then lor32 res 4096 else res
    .next (adv { s with h := { h with stack := setA st (top - 1) res } })
  else if opcode = opIDEF then
    .err "truetype: hinting: unsupported IDEF instruction"
  else if opcode = opROLL then
    let st1 := setA (setA (setA st (top - 1) (stget st (top - 3))) (top - 3)
      (stget st (top - 2))) (top - 2) (stget st (top - 1))
    .next (adv { s with h := { h with stack := st1 } })
  else if opcode = opMAX then
    let top := top - 1
    if stget st (top - 1) < stget st top then
      .next (adv { s with
        h := { h with stack := setA st (top - 1) (stget st top) },
        top := top })
    else .next (adv { s with top := top })
  else if opcode = opMIN then
    let top := top - 1
    if stget st top < stget st (top - 1) then
      .next (adv { s with
        h := { h with stack := setA st (top - 1) (stget st top) },
        top := top })
    else .next (adv { s with top := top })
  else if opPUSHB000 ≤ opcode ∧ opcode ≤ opPUSHB111 then
    execPush s (opcode - (opPUSHB000 - 1))
  else if opPUSHW000 ≤ opcode ∧ opcode ≤ opPUSHW111 then
    execPush s (opcode - (opPUSHW000 - 1) + 128)
  else if opMDRP00000 ≤ opcode ∧ opcode ≤ opMDRP11111 then
    execMDRP s opcode
  else if opMIRP00000 ≤ opcode ∧ opcode ≤ opMIRP11111 then
    execMIRP s opcode
  else .err "truetype: hinting: unrecognized instruction"

/-- One iteration body of the main loop: fetch, check the popCount guards,
dispatch. -/
def execIns (s : LoopState) : StepOut :=
  let opcode := byteAt s.program s.pc
  if popCount opcode = q then .err "truetype: hinting: unimplemented instruction"
  else if s.top < popCount opcode then .err "truetype: hinting: stack underflow"
  else execDispatch s opcode

/-- Machine state: the loop state plus the `steps` local of `Hinter.run`. -/
structure MState where
  steps : Nat
  ls : LoopState

/-- Result of one loop iteration: halt with `Hinter.run`'s result, or
continue. -/
inductive StepRes where
  | halt (r : Except String LoopState)
  | go (m : MState)

/-- One iteration of `Hinter.run`'s main loop, including the loop condition
`0 ≤ pc < len(program)` and the `steps` increment and bound. -/
def step (m : MState) : StepRes :=
  if 0 ≤ m.ls.pc ∧ m.ls.pc < (m.ls.program.length : Int) then
    if m.steps + 1 = 100000 then .halt (.error "truetype: hinting: too many steps")
    else
      match execIns m.ls with
      | .err e => .halt (.error e)
      | .next ls => .go ⟨m.steps + 1, ls⟩
  else .halt (.ok m.ls)

/-- Iterate `step` at most `n` times; `none` means the loop has not halted
after `n` iterations. -/
def runN : Nat → MState → Option (Except String LoopState)
  | 0, _ => none
  | n + 1, m =>
    match step m with
    | .halt r => some r
    | .go m' => runN n m'

/-- The entry prologue of `Hinter.run`: reset the working graphics state to
the default and install the glyph-zone point slices and contour ends. -/
def Hinter.installGlyph (h : Hinter) (pCurrent pUnhinted pInFontUnits : Array Pt)
    (ends : List Int) : Hinter :=
  { h with
    gs := h.defaultGS,
    points := { h.points with glyph := ⟨pCurrent, pUnhinted, pInFontUnits⟩ },
    ends := ends }

/-- `Hinter.run` from hint.go.  The `steps` counter makes the loop halt
within 100000 iterations (theorem `hinter_run_terminates`), so the
`getD` default is unreachable; it is set to the very error the counter
produces. -/
def Hinter.run (h : Hinter) (program : List Nat) (pCurrent pUnhinted pInFontUnits : Array Pt)
    (ends : List Int) : Except String LoopState :=
  let h := h.installGlyph pCurrent pUnhinted pInFontUnits ends
  if 50000 < program.length then .error "truetype: hinting: too many instructions"
  else (runN 100000 ⟨0, ⟨h, program, 0, 0, []⟩⟩).getD (.error "truetype: hinting: too many steps")

/-! ### Concrete hinters and programs for the bytecode claims -/

/-- Empty zone point set. -/
def emptyZonePts : ZonePts := ⟨#[], #[], #[]⟩

/-- A hinter as produced by `TestBytecode`'s `init` (a 256-element stack and
a 32-element store, rounded up from `maxStackElements = 100` and
`maxStorage = 32`), with an empty value stack. -/
def testHinter : Hinter :=
  { stack := Array.mkArray 256 0, store := Array.mkArray 32 0, functions := [],
    font := fontW, scale := 0, gs := globalDefaultGS, defaultGS := globalDefaultGS,
    points := ⟨emptyZonePts, emptyZonePts⟩, ends := [] }

/-- The arithmetic test program of hint_test.go:
`PUSHB(1<<6, 2<<6, 3<<6); MUL; SUB; NEG; PUSHB(2<<6); DIV; PUSHB(1); ADD;
ABS`. -/
def arithProg : List Nat :=
  [0xB2, 64, 128, 192, 0x63, 0x61, 0x65, 0xB0, 128, 0x62, 0xB0, 1, 0x60, 0x64]

/-- The "infinite loop" test program of hint_test.go:
`PUSHW(-1); DUP; JMPR`, which jumps back to the DUP forever. -/
def jmprSelfProg : List Nat := [0xB8, 0xFF, 0xFF, 0x20, 0x1C]

/-- Top-of-stack observation of a finished run: `(top, stack[0])`. -/
def resTop (r : Except String LoopState) : Option (Nat × Int) :=
  match r with
  | .ok ls => some (ls.top, stget ls.h.stack 0)
  | .error _ => none

set_option maxHeartbeats 2000000 in
set_option maxRecDepth 16000 in
/-- C7: running the arithmetic sequence `PUSHB(64,128,192); MUL; SUB; NEG;
PUSHB(128); DIV; PUSHB(1); ADD; ABS` on a hinter with an empty initial
stack succeeds with exactly `[161]` on the stack (`top = 1`,
`stack[0] = 161`), under 26.6 fixed-point arithmetic
(`mul(a,b) = (a·b) >> 6` in 64 bits, `div(a,b) = (a << 6)/b`). -/
theorem arith_program_result :
    resTop (Hinter.run testHinter arithProg #[] #[] #[] []) = some (1, 161) := by
  rfl

/-- The successor state of one dispatched instruction (used to name the
states of the JMPR cycle without copying them out by hand). -/
def nextOf (s : LoopState) : LoopState :=
  match execIns s with
  | .next s' => s'
  | .err _ => s

/-- Initial loop state of the JMPR-to-self run. -/
def jls0 : LoopState :=
  ⟨Hinter.installGlyph testHinter #[] #[] #[] [], jmprSelfProg, 0, 0, []⟩

/-- After `PUSHW(-1)`. -/
def jls1 : LoopState := nextOf jls0
/-- After the first `DUP`. -/
def jls2 : LoopState := nextOf jls1
/-- After the first `JMPR`: the head of the 2-cycle (`pc = 3`, `top = 1`). -/
def jlsA : LoopState := nextOf jls2
/-- After a `DUP` from `jlsA` (`pc = 4`, `top = 2`). -/
def jlsB : LoopState := nextOf jlsA

/-- Unfolding step for `runN` on a continuing machine. -/
theorem runN_go (n : Nat) (m m' : MState) (h : step m = .go m') :
    runN (n + 1) m = runN n m' := by
  have e : runN (n + 1) m = match step m with
    | .halt r => some r
    | .go m2 => runN n m2 := rfl
  rw [e, h]

/-- Entering `step` on a loop state whose `pc` is inside the program either
trips the steps bound or executes one instruction. -/
theorem step_at (st : Nat) (ls : LoopState)
    (hpc : 0 ≤ ls.pc ∧ ls.pc < (ls.program.length : Int))
    (hne : ¬ st + 1 = 100000) (ls' : LoopState) (hex : execIns ls = .next ls') :
    step ⟨st, ls⟩ = .go ⟨st + 1, ls'⟩ := by
  unfold step
  rw [if_pos hpc, if_neg hne, hex]

set_option maxHeartbeats 4000000 in
set_option maxRecDepth 16000 in
/-- The two instructions of the cycle return to the same loop state. -/
theorem jmpr_cycle_states :
    execIns jlsA = .next jlsB ∧ execIns jlsB = .next jlsA := by
  constructor
  · rfl
  · rfl

set_option maxHeartbeats 4000000 in
set_option maxRecDepth 16000 in
/-- From the cycle state with an odd step count `3 + 2j ≤ 99999`, the exact
remaining fuel runs the machine into the "too many steps" error. -/
theorem jmpr_cycle (d : Nat) : ∀ (j : Nat), 3 + 2 * j + 2 * d = 99999 →
    runN (100000 - (3 + 2 * j)) ⟨3 + 2 * j, jlsA⟩ =
      some (.error "truetype: hinting: too many steps") := by
  induction d with
  | zero =>
    intro j hj
    have : j = 49998 := by omega
    subst this
    rfl
  | succ d ih =>
    intro j hj
    have e1 : 100000 - (3 + 2 * j) = (100000 - (3 + 2 * j) - 1) + 1 := by omega
    rw [e1, runN_go _ _ _ (step_at (3 + 2 * j) jlsA (by decide) (by omega) jlsB
      jmpr_cycle_states.1)]
    have e2 : 100000 - (3 + 2 * j) - 1 = (100000 - (3 + 2 * j) - 2) + 1 := by omega
    rw [e2, runN_go _ _ _ (step_at (3 + 2 * j + 1) jlsB (by decide) (by omega) jlsA
      jmpr_cycle_states.2)]
    have e3 : 100000 - (3 + 2 * j) - 2 = 100000 - (3 + 2 * (j + 1)) := by omega
    have e4 : 3 + 2 * j + 1 + 1 = 3 + 2 * (j + 1) := by omega
    rw [e3, e4]
    exact ih (j + 1) (by omega)

/-- `step` increments the step counter by exactly one whenever it
continues, and it never continues into the bound. -/
theorem step_go_steps (m m' : MState) (h : step m = .go m') :
    m'.steps = m.steps + 1 ∧ ¬ m.steps + 1 = 100000 := by
  unfold step at h
  by_cases hc : 0 ≤ m.ls.pc ∧ m.ls.pc < (m.ls.program.length : Int)
  · rw [if_pos hc] at h
    by_cases hb : m.steps + 1 = 100000
    · rw [if_pos hb] at h
      exact absurd h (by simp)
    · rw [if_neg hb] at h
      cases hex : execIns m.ls with
      | err e => rw [hex] at h; exact absurd h (by simp)
      | next ls => rw [hex] at h; injection h with h2; rw [← h2]; exact ⟨rfl, hb⟩
  · rw [if_neg hc] at h
    exact absurd h (by simp)

set_option maxHeartbeats 4000000 in
set_option maxRecDepth 16000 in
/-- C2: `Hinter.run` terminates on every program and input.  (1) A program
longer than 50000 bytes is rejected with the "too many instructions" error
regardless of its content, before any instruction executes.  (2) From any
machine state whose step counter is below the bound, the loop halts within
`100000 − steps` iterations — in particular every run halts within 100000
iterations.  (3) The `PUSHW(-1); DUP; JMPR` program that jumps to itself
forever is aborted with the "too many steps" error. -/
theorem hinter_run_terminates :
    (∀ (h : Hinter) (program : List Nat) (pC pU pF : Array Pt) (ends : List Int),
      50000 < program.length →
      Hinter.run h program pC pU pF ends = .error "truetype: hinting: too many instructions") ∧
    (∀ (n : Nat) (m : MState), m.steps < 100000 → 100000 ≤ m.steps + n →
      (runN n m).isSome) ∧
    Hinter.run testHinter jmprSelfProg #[] #[] #[] [] =
      .error "truetype: hinting: too many steps" := by
  refine ⟨?_, ?_, ?_⟩
  · intro h program pC pU pF ends hlen
    unfold Hinter.run
    rw [if_pos hlen]
  · intro n
    induction n with
    | zero => intro m h1 h2; omega
    | succ n ih =>
      intro m h1 h2
      unfold runN
      cases hstep : step m with
      | halt r => simp
      | go m' =>
        rcases step_go_steps m m' hstep with ⟨hs, hne⟩
        exact ih m' (by omega) (by omega)
  · show Hinter.run testHinter jmprSelfProg #[] #[] #[] [] =
      .error "truetype: hinting: too many steps"
    unfold Hinter.run
    rw [if_neg (by decide)]
    have h0 : runN 100000 ⟨0, jls0⟩ = runN 99999 ⟨1, jls1⟩ :=
      runN_go 99999 _ _ (step_at 0 jls0 (by decide) (by omega) jls1 rfl)
    have h1 : runN 99999 ⟨1, jls1⟩ = runN 99998 ⟨2, jls2⟩ :=
      runN_go 99998 _ _ (step_at 1 jls1 (by decide) (by omega) jls2 rfl)
    have h2 : runN 99998 ⟨2, jls2⟩ = runN 99997 ⟨3, jlsA⟩ :=
      runN_go 99997 _ _ (step_at 2 jls2 (by decide) (by omega) jlsA rfl)
    have h3 : runN 99997 ⟨3, jlsA⟩ = some (.error "truetype: hinting: too many steps") := by
      have := jmpr_cycle 49998 0 (by omega)
      simpa using this
    show (runN 100000 ⟨0, jls0⟩).getD (.error "truetype: hinting: too many steps") = _
    rw [h0, h1, h2, h3]
    rfl

/-- Witness for C2's quantified parts: the long-program check fires on a
program of 50001 zero bytes even though its first instruction would
otherwise execute, and the termination bound instantiated at the initial
state. -/
theorem hinter_run_terminates_witness :
    Hinter.run testHinter (List.replicate 50001 0) #[] #[] #[] [] =
      .error "truetype: hinting: too many instructions" ∧
    (runN 100000 ⟨0, jls0⟩).isSome := by
  constructor
  · exact hinter_run_terminates.1 testHinter _ #[] #[] #[] []
      (by rw [List.length_replicate]; omega)
  · exact hinter_run_terminates.2.1 100000 ⟨0, jls0⟩ (by decide) (by decide)

/-! ### `Hinter.init` (per font/scale initialization) and C5 -/

/-- `resetTwilightPoints` from hint.go: both the reslice-and-zero path and
the reallocation path produce `maxTwilightPoints + 4` zero points. -/
def resetTwilightPoints (f : Font) : Array Pt :=
  Array.mkArray (f.maxTwilightPoints + 4) ⟨0, 0, 0⟩

/-- The font-change stage of `Hinter.init`: twilight reset, and on a font
change the function-table flush, the stack/store growth (rounded up to
multiples of 256 and 16) and the `fpgm` run.  `fontChanged` stands for the
Go pointer comparison `h.font != f`, which is not a value comparison. -/
def initFontStage (h : Hinter) (f : Font) (fontChanged : Bool) : Except String Hinter :=
  let tw := resetTwilightPoints f
  let h := { h with points := { h.points with twilight := ⟨tw, tw, tw⟩ } }
  if fontChanged then
    let h := { h with font := f, functions := [] }
    let h := if h.stack.size < f.maxStackElements then
        { h with stack := Array.mkArray (((f.maxStackElements + 255) / 256) * 256) 0 }
      else h
    let h := if h.store.size < f.maxStorage then
        { h with store := Array.mkArray (((f.maxStorage + 15) / 16) * 16) 0 }
      else h
    if ¬ f.fpgm = [] then
      match h.run f.fpgm #[] #[] #[] [] with
      | .error e => .error e
      | .ok ls => .ok ls.h
    else .ok h
  else .ok h

/-- The six graphics-state fields the MS rasterizer does not let the CVT
program modify, forced back to the global defaults after `prep` runs. -/
def overrideGS (gs : graphicsState) : graphicsState :=
  { gs with
    pv := globalDefaultGS.pv, fv := globalDefaultGS.fv, dv := globalDefaultGS.dv,
    rp0 := globalDefaultGS.rp0, rp1 := globalDefaultGS.rp1, rp2 := globalDefaultGS.rp2,
    zp0 := globalDefaultGS.zp0, zp1 := globalDefaultGS.zp1, zp2 := globalDefaultGS.zp2,
    loop := globalDefaultGS.loop }

/-- `Hinter.init` from hint.go. -/
def hinterInit (h : Hinter) (f : Font) (scale : Int) (fontChanged : Bool) :
    Except String Hinter :=
  match initFontStage h f fontChanged with
  | .error e => .error e
  | .ok h1 =>
    if fontChanged = true ∨ ¬ h.scale = scale then
      let h2 := { h1 with scale := scale, defaultGS := globalDefaultGS }
      if ¬ f.prep = [] then
        match h2.run f.prep #[] #[] #[] [] with
        | .error e => .error e
        | .ok ls => .ok { ls.h with defaultGS := overrideGS ls.h.gs }
      else .ok h2
    else .ok h1

/-- C5: (1) for a new (font, scale) pair whose `prep` program runs to
completion, `Hinter.init` produces exactly the post-`prep` hinter with its
`defaultGS` set to the graphics state the `prep` program left behind,
except that the `pv`, `fv`, `dv`, `rp`, `zp` and `loop` fields are forced
back to the global defaults; and (2) every per-glyph `Hinter.run` starts by
resetting the working graphics state `gs` to `defaultGS` (the entry
prologue `installGlyph`). -/
theorem hinter_init_defaultGS :
    (∀ (h : Hinter) (f : Font) (scale : Int) (fontChanged : Bool) (h1 : Hinter)
        (ls : LoopState),
      initFontStage h f fontChanged = .ok h1 →
      (fontChanged = true ∨ ¬ h.scale = scale) →
      ¬ f.prep = [] →
      Hinter.run { h1 with scale := scale, defaultGS := globalDefaultGS }
        f.prep #[] #[] #[] [] = .ok ls →
      hinterInit h f scale fontChanged = .ok { ls.h with defaultGS := overrideGS ls.h.gs }) ∧
    (∀ (h : Hinter) (pC pU pF : Array Pt) (ends : List Int),
      (h.installGlyph pC pU pF ends).gs = h.defaultGS) := by
  constructor
  · intro h f scale fontChanged h1 ls hstage hnew hprep hrun
    unfold hinterInit
    rw [hstage]
    dsimp only
    rw [if_pos hnew, if_pos hprep, hrun]
  · intro h pC pU pF ends
    rfl

/-- The zero graphics state of Go's zero `Hinter{}` value. -/
def zeroGS : graphicsState where
  pv := (0, 0)
  fv := (0, 0)
  dv := (0, 0)
  rp0 := 0
  rp1 := 0
  rp2 := 0
  zp0 := 0
  zp1 := 0
  zp2 := 0
  controlValueCutIn := 0
  singleWidthCutIn := 0
  singleWidth := 0
  deltaBase := 0
  deltaShift := 0
  minDist := 0
  loop := 0
  roundPeriod := 0
  roundPhase := 0
  roundThreshold := 0
  autoFlip := false

/-- A freshly constructed hinter (Go's zero `Hinter{}` value). -/
def freshHinter : Hinter :=
  { stack := #[], store := #[], functions := [], font := fontW, scale := 0,
    gs := zeroGS, defaultGS := zeroGS,
    points := ⟨emptyZonePts, emptyZonePts⟩, ends := [] }

/-- A font whose `prep` program is the single instruction `RTHG`
(round-to-half-grid: period 64, phase 32, threshold 32). -/
def fontC5 : Font := { fontW with prep := [0x19] }

/-- Extract the hinter of an `ok` result (the default is never used in the
witness below). -/
def extractH (e : Except String Hinter) : Hinter :=
  match e with
  | .ok x => x
  | .error _ => freshHinter

/-- Extract the loop state of an `ok` result. -/
def extractLS (e : Except String LoopState) : LoopState :=
  match e with
  | .ok x => x
  | .error _ => ⟨freshHinter, [], 0, 0, []⟩

/-- The hinter after the font-change stage of the C5 witness. -/
def h1C5 : Hinter := extractH (initFontStage freshHinter fontC5 true)

/-- The loop state after the C5 witness's `prep` run. -/
def lsC5 : LoopState :=
  extractLS (Hinter.run { h1C5 with scale := 99, defaultGS := globalDefaultGS }
    fontC5.prep #[] #[] #[] [])

set_option maxRecDepth 16000 in
/-- Witness for C5 at a concrete new (font, scale) pair: the captured
`defaultGS` is the global default with only `roundPhase` changed to 32 by
the `RTHG` prep program, and the per-glyph reset instantiated at
`testHinter`. -/
theorem hinter_init_defaultGS_witness :
    hinterInit freshHinter fontC5 99 true = .ok { lsC5.h with defaultGS := overrideGS lsC5.h.gs } ∧
      (extractH (hinterInit freshHinter fontC5 99 true)).defaultGS =
        { globalDefaultGS with roundPhase := 32 } ∧
      (testHinter.installGlyph #[] #[] #[] []).gs = testHinter.defaultGS := by
  refine ⟨hinter_init_defaultGS.1 freshHinter fontC5 99 true h1C5 lsC5 rfl (Or.inl rfl)
      (by simp [fontC5]) rfl, by rfl, hinter_init_defaultGS.2 testHinter #[] #[] #[] []⟩

/-! ## The glyph loader (truetype/glyph.go)

Points are kept as `List Pt` here (the hinter's arrays are built at the
`run` boundary), so that the slice-juggling of the loader maps onto
`take`/`drop`/`append`.  Go slice aliasing is made explicit: segments
mutated in place through a slice are reassembled by concatenation. -/

/-- A glyph bounding box (`Bounds` in truetype.go, widened to `int32` after
scaling). -/
structure Bounds where
  XMin : Int
  YMin : Int
  XMax : Int
  YMax : Int
  deriving DecidableEq, Repr

/-- Errors of the glyph loader.  `unsupported`/`format` are the exported
error types of truetype.go; `hint` wraps errors returned by the hinter
(`errors.New` values); `panicE` models Go runtime panics (out-of-range
slice indexing). -/
inductive LoadErr where
  | unsupported (s : String)
  | format (s : String)
  | hint (s : String)
  | panicE (s : String)
  deriving DecidableEq, Repr

/-- `GlyphBuf` from glyph.go.  `hinter` is `none` when no hinter was passed
to `Load`; the hinter value is threaded through because `Hinter.run`
mutates it in place in Go. -/
structure GlyphBuf where
  B : Bounds
  Point : List Pt
  Unhinted : List Pt
  InFontUnits : List Pt
  End : List Int
  font : Font
  hinter : Option Hinter
  scale : Int
  pp1x : Int
  metricsSet : Bool
  tmp : List Pt

/-- Modelled from the spec: `Font.unscaledHMetric` is code of this
repository missing from src/; per spec §4.3 it is the `hMetric` lookup in
raw FUnits with the `nHMetric` clamp, which is exactly the in-src (old)
`Font.HMetric`. -/
def Font.unscaledHMetric (f : Font) (i : Nat) : Option FT.HMetric := f.HMetric i

/-- Modelled from the spec: `Font.unscaledVMetric` is code of this
repository missing from src/; the spec only uses its `(tsb, vertAdvance)`
result in the phantom-point formulas, so it is modelled as the opaque
per-font lookup `vMetricOf`, intended to return `int16`-ranged FUnit
values. -/
def Font.unscaledVMetric (f : Font) (i : Nat) (yMax : Int) : VMetric := f.vMetricOf i yMax

/-- The `glyf` range of glyph `i` from the `loca` table (short or long
offsets); `none` is an out-of-range read (Go panic). -/
def glyphRange (f : Font) (i : Nat) : Option (Nat × Nat) :=
  if f.locaOffsetFormat = locaOffsetFormatShort then
    match u16 f.loca (2 * i), u16 f.loca (2 * i + 2) with
    | some a, some b => some (2 * a, 2 * b)
    | _, _ => none
  else
    match u32 f.loca (4 * i), u32 f.loca (4 * i + 4) with
    | some a, some b => some (a, b)
    | _, _ => none

/-- The contour-end loop of `loadSimple`: append `ne` values
`1 + u16(glyf, offset)`. -/
def loadSimpleEnds (glyf : List Nat) : Nat → Nat → List Int → Option (List Int × Nat)
  | 0, offset, acc => some (acc, offset)
  | n + 1, offset, acc =>
    match u16 glyf offset with
    | none => none
    | some v => loadSimpleEnds glyf n (offset + 2) (acc ++ [1 + (v : Int)])

/-- The inner `count` loop of the flag decoder (`flagRepeat`). -/
def repeatFlags (c : Nat) : Nat → List Pt → List Pt
  | 0, pts => pts
  | n + 1, pts => repeatFlags c n (pts ++ [⟨0, 0, c⟩])

/-- The flag decoder of `loadSimple`.  The outer loop advances `i` by at
least one per iteration, so fuel `(np1 − i).toNat` is an upper bound on the
iteration count and the fuel-0 case coincides with the loop exit. -/
def decodeFlags (glyf : List Nat) (np1 : Int) :
    Nat → Int → Nat → List Pt → Option (List Pt × Nat)
  | 0, _, offset, pts => some (pts, offset)
  | fuel + 1, i, offset, pts =>
    if i < np1 then
      match glyf.get? offset with
      | none => none
      | some c =>
        let offset := offset + 1
        let pts := pts ++ [⟨0, 0, c⟩]
        let i := i + 1
        if landN c flagRepeat ≠ 0 then
          match glyf.get? offset with
          | none => none
          | some count =>
            decodeFlags glyf np1 fuel (i + count) (offset + 1) (repeatFlags c count pts)
        else decodeFlags glyf np1 fuel i offset pts
    else some (pts, offset)

/-- Store an X or Y coordinate into the point at list index `i`. -/
def setCoordAt (isX : Bool) (pts : List Pt) (i : Nat) (v : Int) : List Pt :=
  match pts.get? i with
  | none => pts
  | some p => pts.set i (if isX then { p with X := v } else { p with Y := v })

/-- The coordinate decoder of `loadSimple` (one axis).  `x` is the `int16`
running accumulator. -/
def decodeCoords (isX : Bool) (glyf : List Nat) (shortFlag sameFlag : Nat) :
    Nat → Nat → Nat → Int → List Pt → Option (List Pt × Nat)
  | 0, _, offset, _, pts => some (pts, offset)
  | fuel + 1, i, offset, x, pts =>
    let f := (pts.getD i ⟨0, 0, 0⟩).Flags
    if landN f shortFlag ≠ 0 then
      match glyf.get? offset with
      | none => none
      | some d =>
        let x := if landN f sameFlag = 0 then trunc16 (x - d) else trunc16 (x + d)
        decodeCoords isX glyf shortFlag sameFlag fuel (i + 1) (offset + 1) x
          (setCoordAt isX pts i x)
    else if landN f sameFlag = 0 then
      match u16 glyf offset with
      | none => none
      | some d =>
        let x := trunc16 (x + toInt16 d)
        decodeCoords isX glyf shortFlag sameFlag fuel (i + 1) (offset + 2) x
          (setCoordAt isX pts i x)
    else
      decodeCoords isX glyf shortFlag sameFlag fuel (i + 1) offset x
        (setCoordAt isX pts i x)

/-- `GlyphBuf.loadSimple` from glyph.go: contour ends, the instruction
program, run-length-decoded flags, then delta-decoded X and Y coordinates. -/
def loadSimple (g : GlyphBuf) (glyf : List Nat) (ne : Nat) :
    Except LoadErr (GlyphBuf × List Nat) :=
  match loadSimpleEnds glyf ne 10 [] with
  | none => .error (.panicE "glyf read out of range")
  | some (ends, offset) =>
    let endList := g.End ++ ends
    match u16 glyf offset with
    | none => .error (.panicE "glyf read out of range")
    | some instrLen =>
      let offset := offset + 2
      if glyf.length < offset + instrLen then .error (.panicE "glyf slice out of range")
      else
        let program := (glyf.drop offset).take instrLen
        let offset := offset + instrLen
        match endList.getLast? with
        | none => .error (.panicE "empty contour-end list")
        | some lastEnd =>
          let np0 := g.Point.length
          let np1 : Int := np0 + lastEnd
          match decodeFlags glyf np1 (np1 - np0).toNat np0 offset g.Point with
          | none => .error (.panicE "glyf read out of range")
          | some (pts, offset) =>
            match decodeCoords true glyf flagXShortVector flagPositiveXShortVector
                (np1 - np0).toNat np0 offset 0 pts with
            | none => .error (.panicE "glyf read out of range")
            | some (pts, offset) =>
              match decodeCoords false glyf flagYShortVector flagPositiveYShortVector
                  (np1 - np0).toNat np0 offset 0 pts with
              | none => .error (.panicE "glyf read out of range")
              | some (pts, _) =>
                .ok ({ g with Point := pts, End := endList }, program)

/-- Scale a point's coordinates through the loader's
`font.scale(scale · v)` pipeline (the multiplication is in `int32`). -/
def scalePt (f : Font) (scale : Int) (p : Pt) : Pt :=
  { p with X := f.scale (trunc32 (scale * p.X)), Y := f.scale (trunc32 (scale * p.Y)) }

/-- Apply `f` to the points from index `np0` on. -/
def mapFrom (np0 : Nat) (f : Pt → Pt) (pts : List Pt) : List Pt :=
  pts.take np0 ++ (pts.drop np0).map f

/-- The four phantom points, in font units, in their append order. -/
def phantomPoints (b : Bounds) (uhm : HMetric) (uvm : VMetric) : List Pt :=
  [⟨b.XMin - uhm.LeftSideBearing, 0, 0⟩,
   ⟨b.XMin - uhm.LeftSideBearing + (uhm.AdvanceWidth : Int), 0, 0⟩,
   ⟨Int.tdiv (uhm.AdvanceWidth : Int) 2, b.YMax + uvm.TopSideBearing, 0⟩,
   ⟨Int.tdiv (uhm.AdvanceWidth : Int) 2,
     b.YMax + uvm.TopSideBearing - uvm.AdvanceHeight, 0⟩]

/-- Round the X coordinate of the point at index `i` to the pixel grid
(`(x + 32) &^ 63`), or its Y coordinate. -/
def roundPtAt (isX : Bool) (pts : List Pt) (i : Nat) : List Pt :=
  match pts.get? i with
  | none => pts
  | some p =>
    pts.set i (if isX then { p with X := land32 (add32 p.X 32) (-64) }
      else { p with Y := land32 (add32 p.Y 32) (-64) })

/-- The pp1x grid shift inside `addPhantomsAndScale`: round the first
phantom point (4th-from-last) to the pixel grid, shifting every point from
`np0` on equally (a no-op when it is already on the grid). -/
def apsShift (np0 : Nat) (pts : List Pt) : List Pt :=
  let pp1x := (pts.getD (pts.length - 4) ⟨0, 0, 0⟩).X
  let dx := sub32 (land32 (add32 pp1x 32) (-64)) pp1x
  if dx ≠ 0 then mapFrom np0 (fun p => { p with X := add32 p.X dx }) pts else pts

/-- `GlyphBuf.addPhantomsAndScale` from glyph.go: append the four phantom
points, capture the font-unit copy into `InFontUnits` (simple glyphs with a
hinter), scale everything from `np0` on, shift so the first phantom point
lands on the grid and capture `Unhinted` (simple glyphs with a hinter),
then round the 2nd and 4th phantom points to the grid. -/
def addPhantomsAndScale (g : GlyphBuf) (b : Bounds) (uhm : HMetric) (i : Nat)
    (np0 : Nat) (simple : Bool) : GlyphBuf :=
  let uvm := g.font.unscaledVMetric i b.YMax
  let pts := g.Point ++ phantomPoints b uhm uvm
  let ifu := if simple ∧ g.hinter.isSome then g.InFontUnits ++ pts.drop np0 else g.InFontUnits
  let pts := mapFrom np0 (scalePt g.font g.scale) pts
  let stage :=
    if simple ∧ g.hinter.isSome then
      let pts := apsShift np0 pts
      (pts, g.Unhinted ++ pts.drop np0)
    else (pts, g.Unhinted)
  let pts := roundPtAt true stage.1 (stage.1.length - 3)
  let pts := roundPtAt false pts (pts.length - 1)
  { g with Point := pts, Unhinted := stage.2, InFontUnits := ifu }

/-- A compound component's 2×2 transform, as four f2dot14 entries. -/
structure Transform where
  t0 : Int
  t1 : Int
  t2 : Int
  t3 : Int
  deriving DecidableEq, Repr

/-- Apply a compound transform to one point
(`[t0 t2; t1 t3]·p` with `(v·t + 1<<13) >> 14` per product, summed in
`int32`). -/
def applyTransform (t : Transform) (p : Pt) : Pt :=
  { p with
    X := add32 (trunc32 (sar (p.X * t.t0 + 8192) 14)) (trunc32 (sar (p.Y * t.t2 + 8192) 14)),
    Y := add32 (trunc32 (sar (p.X * t.t1 + 8192) 14)) (trunc32 (sar (p.Y * t.t3 + 8192) 14)) }

/-- The metrics epilogue of `GlyphBuf.load` (`useMyMetrics && !metricsSet`). -/
def setMetrics (g : GlyphBuf) (useMyMetrics : Bool) (b : Bounds) (pp1x : Int) : GlyphBuf :=
  if useMyMetrics ∧ ¬ g.metricsSet then
    { g with
      metricsSet := true,
      B := ⟨g.font.scale (trunc32 (g.scale * b.XMin)), g.font.scale (trunc32 (g.scale * b.YMin)),
        g.font.scale (trunc32 (g.scale * b.XMax)), g.font.scale (trunc32 (g.scale * b.YMax))⟩,
      pp1x := pp1x }
  else g

/-- Clear the IUP touch flags of a point (compound-glyph hinting untouches
every point before running the composite program). -/
def clearTouch (p : Pt) : Pt :=
  { p with Flags := andNotN p.Flags (flagTouchedX + flagTouchedY) }

/-- The simple-glyph branch of `GlyphBuf.load` after `loadSimple` and
`addPhantomsAndScale` have produced `g`: run the hinter over the glyph's
slices when present, then strip the four phantom points and rebase the new
contour ends.  Returns the updated buffer and the branch's `pp1x`. -/
def simpleBranchEpilogue (g : GlyphBuf) (program : List Nat) (np0 ne0 : Nat) :
    Except LoadErr (GlyphBuf × Int) :=
  let pp1x := (g.Point.getD (g.Point.length - 4) ⟨0, 0, 0⟩).X
  let hinted : Except LoadErr GlyphBuf :=
    match g.hinter with
    | some hh =>
      if ¬ program = [] then
        match hh.run program ⟨g.Point.drop np0⟩ ⟨g.Unhinted.drop np0⟩
            ⟨g.InFontUnits.drop np0⟩ (g.End.drop ne0) with
        | .error e => .error (.hint e)
        | .ok ls =>
          .ok { g with
            Point := g.Point.take np0 ++ ls.h.points.glyph.cur.toList,
            Unhinted := g.Unhinted.take np0 ++ ls.h.points.glyph.unh.toList,
            InFontUnits := g.InFontUnits.take np0 ++ ls.h.points.glyph.ifu.toList,
            hinter := some ls.h }
      else .ok g
    | none => .ok g
  match hinted with
  | .error e => .error e
  | .ok g =>
    let g :=
      if g.hinter.isSome then
        { g with
          InFontUnits := g.InFontUnits.take (g.InFontUnits.length - 4),
          Unhinted := g.Unhinted.take (g.Unhinted.length - 4) }
      else g
    let g := { g with Point := g.Point.take (g.Point.length - 4) }
    let g :=
      if ¬ np0 = 0 then
        { g with End := g.End.take ne0 ++ (g.End.drop ne0).map (· + (np0 : Int)) }
      else g
    .ok (g, pp1x)

/-! The loader's recursion (`load` ↔ `loadCompound` ↔ the component loop)
is driven by a structural fuel so the kernel can evaluate it.  The
recursion depth is capped at 32 (the Go `recursion` counter, here the
`budget` counting down from 32), each component record consumes at least 6
bytes of its `glyf` slice, and every `glyf` slice is at most
`font.glyf.length` bytes, so the call-tree size is bounded by
`(font.glyf.length + 3) ^ 33`; with that initial fuel the fuel-exhausted
branches are unreachable. -/

/-- Fuel that dominates the loader's total call count for a font. -/
def loaderFuel (f : Font) : Nat := (f.glyf.length + 3) ^ 33

/-- Decode one compound-glyph component record at `offset`:
flags, component index, the argument pair (bytes or words), and the
optional transform.  Errors: an out-of-range read is a Go panic, and a
record whose `ARGS_ARE_XY_VALUES` flag (bit 1) is unset is
`UnsupportedError("compound glyph transform vector")` — the args are read
before that check, as in the Go code. -/
def componentRecord (glyf : List Nat) (offset : Nat) :
    Except LoadErr (Nat × Nat × Int × Int × Bool × Transform × Nat) :=
  match u16 glyf offset, u16 glyf (offset + 2) with
  | some flags, some component =>
    let argsRes : Option (Int × Int × Nat) :=
      if landN flags 1 ≠ 0 then
        match u16 glyf (offset + 4), u16 glyf (offset + 6) with
        | some a, some c => some (toInt16 a, toInt16 c, offset + 8)
        | _, _ => none
      else
        match glyf.get? (offset + 4), glyf.get? (offset + 5) with
        | some a, some c => some (toInt8 a, toInt8 c, offset + 6)
        | _, _ => none
    match argsRes with
    | none => .error (.panicE "glyf read out of range")
    | some (dx0, dy0, offset) =>
      if landN flags 2 = 0 then .error (.unsupported "compound glyph transform vector")
      else
        let transRes : Option (Bool × Transform × Nat) :=
          if landN flags 200 ≠ 0 then
            if landN flags 8 ≠ 0 then
              match u16 glyf offset with
              | some t => some (true, ⟨toInt16 t, 0, 0, toInt16 t⟩, offset + 2)
              | none => none
            else if landN flags 64 ≠ 0 then
              match u16 glyf offset, u16 glyf (offset + 2) with
              | some t0, some t3 => some (true, ⟨toInt16 t0, 0, 0, toInt16 t3⟩, offset + 4)
              | _, _ => none
            else
              match u16 glyf offset, u16 glyf (offset + 2), u16 glyf (offset + 4),
                  u16 glyf (offset + 6) with
              | some t0, some t1, some t2, some t3 =>
                some (true, ⟨toInt16 t0, toInt16 t1, toInt16 t2, toInt16 t3⟩, offset + 8)
              | _, _, _, _ => none
          else some (false, ⟨0, 0, 0, 0⟩, offset)
        match transRes with
        | none => .error (.panicE "glyf read out of range")
        | some (hasTransform, t, offset) =>
          .ok (flags, component, dx0, dy0, hasTransform, t, offset)
  | _, _ => .error (.panicE "glyf read out of range")

/-- The tail of `GlyphBuf.loadCompound` after the component loop: run the
composite glyph's own hinting program (when a hinter is present and an
instruction block follows the records) over the untouched points with
phantoms.  `np0`/`ne0` are the point/end counts at `loadCompound` entry.
The unhinted and in-font-unit slices both alias the scratch copy `tmp`;
the hinter never writes glyph-zone unhinted/in-font-unit points, so
passing the copy twice matches the Go aliasing. -/
def compoundEpilogue (g : GlyphBuf) (np0 ne0 : Nat) (b : Bounds) (uhm : FT.HMetric)
    (idx : Nat) (glyf : List Nat) (offset : Nat) : Except LoadErr (GlyphBuf × Nat) :=
  match g.hinter with
  | none => .ok (g, 0)
  | some hh =>
    if glyf.length < offset + 2 then .ok (g, 0)
    else
      match u16 glyf offset with
      | none => .error (.panicE "glyf read out of range")
      | some instrLen =>
        let offset := offset + 2
        if instrLen = 0 then .ok (g, 0)
        else if glyf.length < offset + instrLen then
          .error (.panicE "glyf slice out of range")
        else
          let program := (glyf.drop offset).take instrLen
          let g := addPhantomsAndScale g b uhm idx g.Point.length false
          let points := (g.Point.drop np0).map clearTouch
          let ends1 := g.End.drop ne0
          let ends2 := if ¬ np0 = 0 then ends1.map (· - (np0 : Int)) else ends1
          let tmp := points
          match hh.run program ⟨points⟩ ⟨tmp⟩ ⟨tmp⟩ ends2 with
          | .error e => .error (.hint e)
          | .ok ls =>
            let newPts := ls.h.points.glyph.cur.toList
            .ok ({ g with
              Point := g.Point.take np0 ++ newPts.take (newPts.length - 4),
              End := g.End.take ne0 ++ (if ¬ np0 = 0 then ends2.map (· + (np0 : Int)) else ends2),
              hinter := some ls.h,
              tmp := tmp }, 0)

/-- A pending call of the loader's recursive nest: `ld` is `GlyphBuf.load`,
`lc` is `GlyphBuf.loadCompound`, `cl` is `loadCompound`'s component loop.
The three mutually recursive functions are combined into the single
fuel-structural `loadStep` so the kernel can evaluate them. -/
inductive LoadReq where
  | ld (g : GlyphBuf) (budget : Nat) (i : Nat) (useMyMetrics : Bool)
  | lc (g : GlyphBuf) (budget : Nat) (b : Bounds) (uhm : FT.HMetric) (idx : Nat)
    (glyf : List Nat) (useMyMetrics : Bool)
  | cl (g : GlyphBuf) (budget : Nat) (glyf : List Nat) (useMyMetrics : Bool) (offset : Nat)

/-- One dispatcher for the loader's mutually recursive nest (see `LoadReq`).
The `Nat` in the result is the end offset of the component loop (`cl`); the
`ld`/`lc` requests return 0 there.  `budget = 32 − recursion`, so
`budget = 0` is the `recursion >= 32` guard of `GlyphBuf.load`. -/
def loadStep : Nat → LoadReq → Except LoadErr (GlyphBuf × Nat)
  | 0, _ => .error (.panicE "loader fuel exhausted")
  | fuel + 1, .ld g budget i useMyMetrics =>
    if budget = 0 then .error (.unsupported "excessive compound glyph recursion")
    else
      match glyphRange g.font i with
      | none => .error (.panicE "loca read out of range")
      | some (g0, g1) =>
        if g0 = g1 then .ok (g, 0)
        else if g1 < g0 ∨ g.font.glyf.length < g1 then
          .error (.panicE "glyf slice out of range")
        else
          let glyf := (g.font.glyf.drop g0).take (g1 - g0)
          match u16 glyf 0, u16 glyf 2, u16 glyf 4, u16 glyf 6, u16 glyf 8 with
          | some nec, some xmin, some ymin, some xmax, some ymax =>
            let ne := toInt16 nec
            let b : Bounds := ⟨toInt16 xmin, toInt16 ymin, toInt16 xmax, toInt16 ymax⟩
            match g.font.unscaledHMetric i with
            | none => .error (.panicE "hmtx read out of range")
            | some uhm =>
              if ne < 0 then
                if ¬ ne = -1 then .error (.unsupported "negative number of contours")
                else
                  let pp1x := g.font.scale (trunc32 (g.scale * (b.XMin - uhm.LeftSideBearing)))
                  match loadStep fuel (.lc g budget b uhm i glyf useMyMetrics) with
                  | .error e => .error e
                  | .ok (g, _) => .ok (setMetrics g useMyMetrics b pp1x, 0)
              else
                let np0 := g.Point.length
                let ne0 := g.End.length
                match loadSimple g glyf ne.toNat with
                | .error e => .error e
                | .ok (g, program) =>
                  let g := addPhantomsAndScale g b uhm i np0 true
                  match simpleBranchEpilogue g program np0 ne0 with
                  | .error e => .error e
                  | .ok (g, pp1x) => .ok (setMetrics g useMyMetrics b pp1x, 0)
          | _, _, _, _, _ => .error (.panicE "glyf read out of range")
  | fuel + 1, .lc g budget b uhm idx glyf useMyMetrics =>
    let np0 := g.Point.length
    let ne0 := g.End.length
    match loadStep fuel (.cl g budget glyf useMyMetrics 10) with
    | .error e => .error e
    | .ok (g, offset) => compoundEpilogue g np0 ne0 b uhm idx glyf offset
  | fuel + 1, .cl g budget glyf useMyMetrics offset =>
    match componentRecord glyf offset with
    | .error e => .error e
    | .ok (flags, component, dx0, dy0, hasTransform, t, offset) =>
      let np0c := g.Point.length
      let cumm := useMyMetrics ∧ landN flags 512 ≠ 0
      match loadStep fuel (.ld g (budget - 1) component cumm) with
      | .error e => .error e
      | .ok (g, _) =>
        let g := if hasTransform then
            { g with Point := mapFrom np0c (applyTransform t) g.Point }
          else g
        let dx := g.font.scale (trunc32 (g.scale * dx0))
        let dy := g.font.scale (trunc32 (g.scale * dy0))
        let dx := if landN flags 4 ≠ 0 then land32 (add32 dx 32) (-64) else dx
        let dy := if landN flags 4 ≠ 0 then land32 (add32 dy 32) (-64) else dy
        let g := { g with
          Point := mapFrom np0c
            (fun p => { p with X := add32 p.X dx, Y := add32 p.Y dy }) g.Point }
        if landN flags 32 = 0 then .ok (g, offset)
        else loadStep fuel (.cl g budget glyf useMyMetrics offset)

/-- `GlyphBuf.load` from glyph.go (see `loadStep`). -/
def load (fuel : Nat) (g : GlyphBuf) (budget : Nat) (i : Nat) (useMyMetrics : Bool) :
    Except LoadErr GlyphBuf :=
  (loadStep fuel (.ld g budget i useMyMetrics)).map (·.1)

/-- `GlyphBuf.loadCompound` from glyph.go (see `loadStep`): the component
loop, then the composite glyph's own hinting program, run over the
untouched points with phantoms (the unhinted and in-font-unit slices both
alias the scratch copy `tmp`; the hinter never writes glyph-zone
unhinted/in-font-unit points, so passing the copy twice matches the Go
aliasing). -/
def loadCompound (fuel : Nat) (g : GlyphBuf) (budget : Nat) (b : Bounds) (uhm : FT.HMetric)
    (idx : Nat) (glyf : List Nat) (useMyMetrics : Bool) : Except LoadErr GlyphBuf :=
  (loadStep fuel (.lc g budget b uhm idx glyf useMyMetrics)).map (·.1)

/-- The component loop of `loadCompound` (see `loadStep`): decode one
component record (flags, index, argument pair, optional transform),
recursively load the component, transform and translate its points, and
continue while `MORE_COMPONENTS` is set.  Returns the offset just past the
last record. -/
def compoundLoop (fuel : Nat) (g : GlyphBuf) (budget : Nat) (glyf : List Nat)
    (useMyMetrics : Bool) (offset : Nat) : Except LoadErr (GlyphBuf × Nat) :=
  loadStep fuel (.cl g budget glyf useMyMetrics offset)

/-- `GlyphBuf.Load` from glyph.go: reset the buffer, initialize the hinter
when present, load glyph `i` from depth 0, and shift all X coordinates so
the first phantom point lies at zero.  `fontChanged` stands for the Go
pointer comparison inside `Hinter.init`. -/
def GlyphBufLoad (g : GlyphBuf) (f : Font) (scale : Int) (i : Nat) (h : Option Hinter)
    (fontChanged : Bool) : Except LoadErr GlyphBuf :=
  let g := { g with
    B := ⟨0, 0, 0, 0⟩, Point := [], Unhinted := [], InFontUnits := [], End := [],
    font := f, hinter := h, scale := scale, pp1x := 0, metricsSet := false }
  let gInit : Except LoadErr GlyphBuf :=
    match h with
    | some hh =>
      match hinterInit hh f scale fontChanged with
      | .error e => .error (.hint e)
      | .ok hh2 => .ok { g with hinter := some hh2 }
    | none => .ok g
  match gInit with
  | .error e => .error e
  | .ok g =>
    match load (loaderFuel f) g 32 i true with
    | .error e => .error e
    | .ok g =>
      if ¬ g.pp1x = 0 then
        .ok { g with Point := g.Point.map (fun p => { p with X := sub32 p.X g.pp1x }) }
      else .ok g

/-! ### C4: the three `UnsupportedError` cases of glyph loading -/

set_option linter.unreachableTactic false in
set_option linter.unusedTactic false in
/-- `loadSimple` only fails by a Go panic (an out-of-range slice read), never
with an `UnsupportedError`. -/
theorem loadSimple_error (g : GlyphBuf) (glyf : List Nat) (ne : Nat) (e : LoadErr)
    (h : loadSimple g glyf ne = .error e) : ∃ s, e = .panicE s := by
  unfold loadSimple at h
  repeat' split at h
  all_goals try simp_all
  all_goals repeat' split at h
  all_goals try simp_all
  all_goals first | exact ⟨_, rfl⟩ | exact ⟨_, h.symm⟩ | exact ⟨_, h⟩

set_option linter.unreachableTactic false in
set_option linter.unusedTactic false in
/-- The simple-glyph epilogue only fails with a hinting error. -/
theorem simpleBranchEpilogue_error (g : GlyphBuf) (program : List Nat) (np0 ne0 : Nat)
    (e : LoadErr) (h : simpleBranchEpilogue g program np0 ne0 = .error e) :
    ∃ s, e = .hint s := by
  unfold simpleBranchEpilogue at h
  repeat' split at h
  all_goals try simp_all
  all_goals first | exact ⟨_, rfl⟩ | exact ⟨_, h.symm⟩ | exact ⟨_, h⟩

set_option linter.unreachableTactic false in
set_option linter.unusedTactic false in
/-- A component record either fails by a Go panic or with exactly
`UnsupportedError` on the transform-vector argument form. -/
theorem componentRecord_error (glyf : List Nat) (offset : Nat) (e : LoadErr)
    (h : componentRecord glyf offset = .error e) :
    (∃ s, e = .panicE s) ∨ e = .unsupported "compound glyph transform vector" := by
  unfold componentRecord at h
  repeat' split at h
  all_goals try simp_all
  all_goals repeat' split at h
  all_goals try simp_all
  all_goals first
    | exact Or.inl ⟨_, rfl⟩ | exact Or.inl ⟨_, h.symm⟩ | exact Or.inl ⟨_, h⟩
    | exact Or.inr h.symm | exact Or.inr h

set_option linter.unreachableTactic false in
set_option linter.unusedTactic false in
/-- The compound epilogue only fails by a Go panic or a hinting error. -/
theorem compoundEpilogue_error (g : GlyphBuf) (np0 ne0 : Nat) (b : Bounds)
    (uhm : FT.HMetric) (idx : Nat) (glyf : List Nat) (offset : Nat) (e : LoadErr)
    (h : compoundEpilogue g np0 ne0 b uhm idx glyf offset = .error e) :
    (∃ s, e = .panicE s) ∨ (∃ s, e = .hint s) := by
  unfold compoundEpilogue at h
  repeat' split at h
  all_goals try simp_all
  all_goals repeat' split at h
  all_goals try simp_all
  all_goals first
    | exact Or.inl ⟨_, rfl⟩ | exact Or.inl ⟨_, h.symm⟩ | exact Or.inl ⟨_, h⟩
    | exact Or.inr ⟨_, rfl⟩ | exact Or.inr ⟨_, h.symm⟩ | exact Or.inr ⟨_, h⟩

set_option linter.unreachableTactic false in
set_option linter.unusedTactic false in
/-- Message inventory of the loader nest: every `UnsupportedError` message
produced by `loadStep` (at any fuel, from any of the three entry points) is
one of the three literals of the spec. -/
theorem loadStep_unsupported (fuel : Nat) :
    ∀ req msg, loadStep fuel req = .error (.unsupported msg) →
      msg = "excessive compound glyph recursion" ∨ msg = "negative number of contours" ∨
        msg = "compound glyph transform vector" := by
  induction fuel with
  | zero => intro req msg h; simp [loadStep] at h
  | succ n ih =>
    intro req msg h
    cases req with
    | ld g budget i umm =>
      unfold loadStep at h
      all_goals try (dsimp only at h)
      repeat' split at h
      all_goals try (injection h with h)
      all_goals try (exact Except.noConfusion h)
      all_goals try (injection h with h)
      all_goals try (exact LoadErr.noConfusion h)
      all_goals try subst h
      all_goals try (first
        | exact Or.inl rfl
        | exact Or.inr (Or.inl rfl)
        | exact Or.inr (Or.inr rfl)
        | (apply ih; assumption))
      all_goals try (rename_i heq
                     first
                       | (obtain ⟨s, hs⟩ := loadSimple_error _ _ _ _ heq
                          exact LoadErr.noConfusion hs)
                       | (obtain ⟨s, hs⟩ := simpleBranchEpilogue_error _ _ _ _ _ heq
                          exact LoadErr.noConfusion hs)
                       | (rcases componentRecord_error _ _ _ heq with ⟨s, hs⟩ | hs
                          · exact LoadErr.noConfusion hs
                          · injection hs with hs2
                            exact Or.inr (Or.inr hs2)))
      all_goals try (dsimp only at h)
      all_goals try (repeat' split at h)
      all_goals try (injection h with h)
      all_goals try (exact Except.noConfusion h)
      all_goals try (injection h with h)
      all_goals try (exact LoadErr.noConfusion h)
      all_goals try subst h
      all_goals try (first
        | exact Or.inl rfl
        | exact Or.inr (Or.inl rfl)
        | exact Or.inr (Or.inr rfl)
        | (apply ih; assumption))
      all_goals try (rename_i heq
                     first
                       | (obtain ⟨s, hs⟩ := loadSimple_error _ _ _ _ heq
                          exact LoadErr.noConfusion hs)
                       | (obtain ⟨s, hs⟩ := simpleBranchEpilogue_error _ _ _ _ _ heq
                          exact LoadErr.noConfusion hs)
                       | (rcases componentRecord_error _ _ _ heq with ⟨s, hs⟩ | hs
                          · exact LoadErr.noConfusion hs
                          · injection hs with hs2
                            exact Or.inr (Or.inr hs2)))
    | lc g budget b uhm idx glyf umm =>
      unfold loadStep at h
      all_goals try (dsimp only at h)
      repeat' split at h
      all_goals try (injection h with h)
      all_goals try (exact Except.noConfusion h)
      all_goals try (injection h with h)
      all_goals try (exact LoadErr.noConfusion h)
      all_goals try subst h
      all_goals try (first
        | exact Or.inl rfl
        | exact Or.inr (Or.inl rfl)
        | exact Or.inr (Or.inr rfl)
        | (apply ih; assumption))
      all_goals try (rename_i heq
                     first
                       | (obtain ⟨s, hs⟩ := loadSimple_error _ _ _ _ heq
                          exact LoadErr.noConfusion hs)
                       | (obtain ⟨s, hs⟩ := simpleBranchEpilogue_error _ _ _ _ _ heq
                          exact LoadErr.noConfusion hs)
                       | (rcases componentRecord_error _ _ _ heq with ⟨s, hs⟩ | hs
                          · exact LoadErr.noConfusion hs
                          · injection hs with hs2
                            exact Or.inr (Or.inr hs2)))
      all_goals try
        (rcases compoundEpilogue_error _ _ _ _ _ _ _ _ _ h with ⟨s, hs⟩ | ⟨s, hs⟩ <;>
          exact LoadErr.noConfusion hs)
    | cl g budget glyf umm offset =>
      unfold loadStep at h
      all_goals try (dsimp only at h)
      repeat' split at h
      all_goals try (injection h with h)
      all_goals try (exact Except.noConfusion h)
      all_goals try (injection h with h)
      all_goals try (exact LoadErr.noConfusion h)
      all_goals try subst h
      all_goals try (first
        | exact Or.inl rfl
        | exact Or.inr (Or.inl rfl)
        | exact Or.inr (Or.inr rfl)
        | (apply ih; assumption))
      all_goals try (rename_i heq
                     first
                       | (obtain ⟨s, hs⟩ := loadSimple_error _ _ _ _ heq
                          exact LoadErr.noConfusion hs)
                       | (obtain ⟨s, hs⟩ := simpleBranchEpilogue_error _ _ _ _ _ heq
                          exact LoadErr.noConfusion hs)
                       | (rcases componentRecord_error _ _ _ heq with ⟨s, hs⟩ | hs
                          · exact LoadErr.noConfusion hs
                          · injection hs with hs2
                            exact Or.inr (Or.inr hs2)))


/-- `Except.map` does not change the error of a failing computation. -/
theorem except_map_error {α β γ : Type} (fn : α → β) (x : Except γ α) (e : γ)
    (h : x.map fn = .error e) : x = .error e := by
  cases x <;> simp_all [Except.map]

set_option linter.unreachableTactic false in
set_option linter.unusedTactic false in
/-- Every `UnsupportedError` message of `GlyphBuf.Load` is one of the three
literals (hinter-initialization errors are `hint`-wrapped). -/
theorem GlyphBufLoad_unsupported (gb : GlyphBuf) (f : Font) (scale : Int) (i : Nat)
    (h : Option Hinter) (fc : Bool) (msg : String)
    (hL : GlyphBufLoad gb f scale i h fc = .error (.unsupported msg)) :
    msg = "excessive compound glyph recursion" ∨ msg = "negative number of contours" ∨
      msg = "compound glyph transform vector" := by
  unfold GlyphBufLoad at hL
  all_goals try (dsimp only at hL)
  repeat' split at hL
  all_goals try (injection hL with hL)
  all_goals try (exact Except.noConfusion hL)
  all_goals try (injection hL with hL)
  all_goals try (exact LoadErr.noConfusion hL)
  all_goals try subst hL
  all_goals (rename_i heq
             first
               | (unfold load at heq
                  exact loadStep_unsupported _ _ _ (except_map_error _ _ _ heq))
               | (repeat' split at heq
                  all_goals try (injection heq with heq)
                  all_goals try (exact Except.noConfusion heq)
                  all_goals try (injection heq with heq)
                  all_goals try (exact LoadErr.noConfusion heq)))

/-- A fresh glyph buffer (all lists empty), as handed to `GlyphBuf.Load`. -/
def emptyGB : GlyphBuf :=
  ⟨⟨0, 0, 0, 0⟩, [], [], [], [], fontW, none, 0, 0, false, []⟩

/-- A font whose single glyph has contour count −2 (reserved): loading it
must report a negative number of contours. -/
def fontNeg : Font :=
  { fontW with
    loca := [0, 0, 0, 5], locaOffsetFormat := 1, nGlyph := 1, nHMetric := 1,
    hmtx := [0, 80, 0, 5],
    glyf := [0xFF, 0xFE, 0, 0, 0, 0, 0, 0, 0, 0] }

/-- A font whose single glyph is a compound glyph with itself as only
component: loading it must exhaust the recursion bound of 32. -/
def fontRec : Font :=
  { fontW with
    loca := [0, 0, 0, 8], locaOffsetFormat := 1, nGlyph := 1, nHMetric := 1,
    hmtx := [0, 80, 0, 5],
    glyf := [0xFF, 0xFF, 0, 0, 0, 0, 0, 0, 0, 0, 0, 2, 0, 0, 0, 0] }

/-- A font whose single glyph is a compound glyph whose first component has
bit 1 of its flags (the X,Y-offset argument form) unset: loading it must
report the unsupported transform-vector form. -/
def fontTV : Font :=
  { fontW with
    loca := [0, 0, 0, 9], locaOffsetFormat := 1, nGlyph := 1, nHMetric := 1,
    hmtx := [0, 80, 0, 5],
    glyf := [0xFF, 0xFF, 0, 0, 0, 0, 0, 0, 0, 0, 0, 1, 0, 0, 0, 0, 0, 0] }

set_option maxRecDepth 16000 in
/-- C4: glyph loading fails with an `UnsupportedError` exactly for a
negative contour count other than −1, compound recursion deeper than 32, or
a compound component whose `ARGS_ARE_XY_VALUES` flag is unset: every
`UnsupportedError` message `GlyphBuf.Load` can produce is one of those three
(first conjunct), and each of the three does occur, witnessed end-to-end by
three one-glyph fonts (remaining conjuncts). -/
theorem Load_unsupported_exactly_three :
    (∀ gb f scale i h fc msg, GlyphBufLoad gb f scale i h fc = .error (.unsupported msg) →
        msg = "excessive compound glyph recursion" ∨ msg = "negative number of contours" ∨
          msg = "compound glyph transform vector") ∧
    GlyphBufLoad emptyGB fontNeg 2048 0 none false
      = .error (.unsupported "negative number of contours") ∧
    GlyphBufLoad emptyGB fontRec 2048 0 none false
      = .error (.unsupported "excessive compound glyph recursion") ∧
    GlyphBufLoad emptyGB fontTV 2048 0 none false
      = .error (.unsupported "compound glyph transform vector") :=
  ⟨fun gb f scale i h fc msg hL => GlyphBufLoad_unsupported gb f scale i h fc msg hL,
    rfl, rfl, rfl⟩

set_option maxRecDepth 16000 in
/-- Witness for C4: instantiating the inventory direction at the
negative-contour font, discharging its hypothesis by evaluation. -/
theorem Load_unsupported_exactly_three_witness :
    "negative number of contours" = "excessive compound glyph recursion" ∨
      "negative number of contours" = "negative number of contours" ∨
        "negative number of contours" = "compound glyph transform vector" :=
  Load_unsupported_exactly_three.1 emptyGB fontNeg 2048 0 none false _ (by rfl)


/-! ### C3: the phantom-point lifecycle -/

/-- Setting an element at or past `n` does not change the first `n`
elements. -/
theorem take_set_ge {α : Type} (l : List α) (i n : Nat) (v : α) (h : n ≤ i) :
    (l.set i v).take n = l.take n := by
  induction l generalizing i n with
  | nil => simp
  | cons a l ih =>
    cases i with
    | zero => cases n <;> simp_all
    | succ i =>
      cases n with
      | zero => simp
      | succ n => simp [List.set, ih i n (by omega)]

/-- `mapFrom` preserves length. -/
theorem mapFrom_length (np0 : Nat) (f : Pt → Pt) (l : List Pt) :
    (mapFrom np0 f l).length = l.length := by
  simp [mapFrom]
  omega

/-- `mapFrom` leaves the first `np0` points unchanged. -/
theorem mapFrom_take (np0 : Nat) (f : Pt → Pt) (l : List Pt) (h : np0 ≤ l.length) :
    (mapFrom np0 f l).take np0 = l.take np0 := by
  unfold mapFrom
  rw [List.take_append_of_le_length (by simp; omega), List.take_take]
  simp

/-- `mapFrom` maps every point from `np0` on. -/
theorem mapFrom_drop (np0 : Nat) (f : Pt → Pt) (l : List Pt) (h : np0 ≤ l.length) :
    (mapFrom np0 f l).drop np0 = (l.drop np0).map f := by
  unfold mapFrom
  have hl : (l.take np0).length = np0 := by simp; omega
  calc (l.take np0 ++ (l.drop np0).map f).drop np0
      = (l.take np0 ++ (l.drop np0).map f).drop ((l.take np0).length + 0) := by
        rw [hl, Nat.add_zero]
    _ = ((l.drop np0).map f).drop 0 := List.drop_append 0
    _ = (l.drop np0).map f := rfl

/-- `roundPtAt` preserves length. -/
theorem roundPtAt_length (isX : Bool) (pts : List Pt) (i : Nat) :
    (roundPtAt isX pts i).length = pts.length := by
  unfold roundPtAt
  split <;> simp

/-- `roundPtAt` at or past `n` does not change the first `n` points. -/
theorem roundPtAt_take (isX : Bool) (pts : List Pt) (i n : Nat) (h : n ≤ i) :
    (roundPtAt isX pts i).take n = pts.take n := by
  unfold roundPtAt
  split
  · rfl
  · split <;> exact take_set_ge _ _ _ _ h


/-- `apsShift` preserves length. -/
theorem apsShift_length (np0 : Nat) (pts : List Pt) :
    (apsShift np0 pts).length = pts.length := by
  unfold apsShift
  dsimp only
  split
  · exact mapFrom_length _ _ _
  · rfl

/-- `apsShift` leaves the first `np0` points unchanged. -/
theorem apsShift_take (np0 : Nat) (pts : List Pt) (h : np0 ≤ pts.length) :
    (apsShift np0 pts).take np0 = pts.take np0 := by
  unfold apsShift
  dsimp only
  split
  · exact mapFrom_take _ _ _ h
  · rfl

/-- Rounding a point at or past `n + k` does not change the `k`-point
window starting at `n`. -/
theorem roundPtAt_window (isX : Bool) (pts : List Pt) (j n k : Nat) (h : n + k ≤ j) :
    ((roundPtAt isX pts j).drop n).take k = (pts.drop n).take k := by
  rw [List.take_drop, List.take_drop, roundPtAt_take _ _ _ _ h]

/-- Joint shape facts of `addPhantomsAndScale` on the simple-glyph path
with a hinter. -/
theorem aps_all (g : GlyphBuf) (b : Bounds) (uhm : FT.HMetric) (i np0 : Nat)
    (h : np0 ≤ g.Point.length) (hh : g.hinter.isSome) :
    (addPhantomsAndScale g b uhm i np0 true).InFontUnits
        = g.InFontUnits ++ (g.Point.drop np0
            ++ phantomPoints b uhm (g.font.unscaledVMetric i b.YMax)) ∧
    (addPhantomsAndScale g b uhm i np0 true).Point.length = g.Point.length + 4 ∧
    (addPhantomsAndScale g b uhm i np0 true).Point.take np0 = g.Point.take np0 ∧
    ((addPhantomsAndScale g b uhm i np0 true).Unhinted).take
        ((addPhantomsAndScale g b uhm i np0 true).Unhinted.length - 4)
      = g.Unhinted ++ (((addPhantomsAndScale g b uhm i np0 true).Point.drop np0).take
          (g.Point.length - np0)) ∧
    (addPhantomsAndScale g b uhm i np0 true).Unhinted.length
      = g.Unhinted.length + (g.Point.length + 4 - np0) := by
  have hph : (phantomPoints b uhm (g.font.unscaledVMetric i b.YMax)).length = 4 := rfl
  unfold addPhantomsAndScale
  dsimp only
  rw [if_pos (⟨rfl, hh⟩ : true = true ∧ g.hinter.isSome = true),
    if_pos (⟨rfl, hh⟩ : true = true ∧ g.hinter.isSome = true)]
  dsimp only
  set Φ := phantomPoints b uhm (g.font.unscaledVMetric i b.YMax) with hPh
  set p1 := mapFrom np0 (scalePt g.font g.scale) (g.Point ++ Φ) with hp1
  set q := apsShift np0 p1 with hq
  have hlp1 : p1.length = g.Point.length + 4 := by
    rw [hp1, mapFrom_length, List.length_append, hPh, hph]
  have hlq : q.length = g.Point.length + 4 := by rw [hq, apsShift_length, hlp1]
  have hqt : q.take np0 = g.Point.take np0 := by
    rw [hq, apsShift_take _ _ (by omega), hp1, mapFrom_take _ _ _ (by simp; omega),
      List.take_append_of_le_length h]
  refine ⟨?_, ?_, ?_, ?_, ?_⟩
  · rw [List.drop_append_of_le_length h]
  · rw [roundPtAt_length, roundPtAt_length, hlq]
  · rw [roundPtAt_take _ _ _ _ (by rw [roundPtAt_length, hlq]; omega),
      roundPtAt_take _ _ _ _ (by rw [hlq]; omega), hqt]
  · have hld : (q.drop np0).length = g.Point.length + 4 - np0 := by
      rw [List.length_drop, hlq]
    rw [List.length_append, hld]
    have harith : g.Unhinted.length + (g.Point.length + 4 - np0) - 4
        = g.Unhinted.length + (g.Point.length - np0) := by omega
    rw [harith, List.take_append]
    rw [roundPtAt_window _ _ _ _ _ (by rw [roundPtAt_length, hlq]; omega),
      roundPtAt_window _ _ _ _ _ (by rw [hlq]; omega)]
  · rw [List.length_append, List.length_drop, hlq]


/-- On the hinted simple-glyph path with an empty instruction program, the
epilogue strips exactly the four phantom points: `Point` keeps its prefix
plus the scaled own points, `Unhinted` gains the same own points, and
`InFontUnits` gains exactly the original font-unit points. -/
theorem sbe_noprog (g : GlyphBuf) (b : Bounds) (uhm : FT.HMetric) (i np0 ne0 : Nat)
    (h : np0 ≤ g.Point.length) (hh : g.hinter.isSome) :
    (simpleBranchEpilogue (addPhantomsAndScale g b uhm i np0 true) [] np0 ne0).map
        (fun x => (x.1.Point, x.1.Unhinted, x.1.InFontUnits))
      = .ok (g.Point.take np0
            ++ (((addPhantomsAndScale g b uhm i np0 true).Point.drop np0).take
                  (g.Point.length - np0)),
          g.Unhinted
            ++ (((addPhantomsAndScale g b uhm i np0 true).Point.drop np0).take
                  (g.Point.length - np0)),
          g.InFontUnits ++ g.Point.drop np0) := by
  obtain ⟨h1, h2, h3, h4, h5⟩ := aps_all g b uhm i np0 h hh
  obtain ⟨hh', hhh⟩ := Option.isSome_iff_exists.mp hh
  have hph : (phantomPoints b uhm (g.font.unscaledVMetric i b.YMax)).length = 4 := rfl
  have hsome : (addPhantomsAndScale g b uhm i np0 true).hinter = some hh' := hhh
  unfold simpleBranchEpilogue
  dsimp only
  simp only [hsome, eq_self_iff_true, not_true, if_false, Option.isSome_some, if_true]
  split
  all_goals
    simp only [Except.map, Except.ok.injEq, Prod.mk.injEq]
  all_goals
    refine ⟨?_, ?_, ?_⟩
  case isTrue.refine_1 =>
    rw [h2]
    have e : g.Point.length + 4 - 4 = np0 + (g.Point.length - np0) := by omega
    rw [e, List.take_add, h3]
  case isFalse.refine_1 =>
    rw [h2]
    have e : g.Point.length + 4 - 4 = np0 + (g.Point.length - np0) := by omega
    rw [e, List.take_add, h3]
  case isTrue.refine_2 => exact h4
  case isFalse.refine_2 => exact h4
  all_goals
    (rw [h1, ← List.append_assoc]
     have e2 : (g.InFontUnits ++ g.Point.drop np0
         ++ phantomPoints b uhm (g.font.unscaledVMetric i b.YMax)).length - 4
         = (g.InFontUnits ++ g.Point.drop np0).length := by
       simp only [List.length_append, hph]
       omega
     rw [e2, List.take_left])


/-- On the hinted simple-glyph path with a nonempty program that runs
successfully, the epilogue's result is the run's output point arrays with
their last four (phantom) points dropped, appended to the untouched
prefixes. -/
theorem sbe_prog (g1 : GlyphBuf) (hh : Hinter) (program : List Nat) (np0 ne0 : Nat)
    (ls : LoopState)
    (hsome : g1.hinter = some hh) (hp : ¬ program = [])
    (hrun : hh.run program ⟨g1.Point.drop np0⟩ ⟨g1.Unhinted.drop np0⟩
        ⟨g1.InFontUnits.drop np0⟩ (g1.End.drop ne0) = .ok ls)
    (hc : 4 ≤ ls.h.points.glyph.cur.size) (hu : 4 ≤ ls.h.points.glyph.unh.size)
    (hf : 4 ≤ ls.h.points.glyph.ifu.size) :
    (simpleBranchEpilogue g1 program np0 ne0).map
        (fun x => (x.1.Point, x.1.Unhinted, x.1.InFontUnits))
      = .ok (g1.Point.take np0
              ++ ls.h.points.glyph.cur.toList.take (ls.h.points.glyph.cur.size - 4),
            g1.Unhinted.take np0
              ++ ls.h.points.glyph.unh.toList.take (ls.h.points.glyph.unh.size - 4),
            g1.InFontUnits.take np0
              ++ ls.h.points.glyph.ifu.toList.take (ls.h.points.glyph.ifu.size - 4)) := by
  have hcl : ls.h.points.glyph.cur.toList.length = ls.h.points.glyph.cur.size := rfl
  have hul : ls.h.points.glyph.unh.toList.length = ls.h.points.glyph.unh.size := rfl
  have hfl : ls.h.points.glyph.ifu.toList.length = ls.h.points.glyph.ifu.size := rfl
  unfold simpleBranchEpilogue
  dsimp only
  simp only [hsome]
  rw [if_pos hp, hrun]
  dsimp only
  simp only [Option.isSome_some, if_true]
  split
  all_goals
    simp only [Except.map, Except.ok.injEq, Prod.mk.injEq]
  all_goals
    refine ⟨?_, ?_, ?_⟩
  all_goals
    first
      | (have e : (g1.Point.take np0 ++ ls.h.points.glyph.cur.toList).length - 4
             = (g1.Point.take np0).length + (ls.h.points.glyph.cur.size - 4) := by
           simp only [List.length_append, hcl]
           omega
         rw [e, List.take_append])
      | (have e : (g1.Unhinted.take np0 ++ ls.h.points.glyph.unh.toList).length - 4
             = (g1.Unhinted.take np0).length + (ls.h.points.glyph.unh.size - 4) := by
           simp only [List.length_append, hul]
           omega
         rw [e, List.take_append])
      | (have e : (g1.InFontUnits.take np0 ++ ls.h.points.glyph.ifu.toList).length - 4
             = (g1.InFontUnits.take np0).length + (ls.h.points.glyph.ifu.size - 4) := by
           simp only [List.length_append, hfl]
           omega
         rw [e, List.take_append])


/-- A font with a single one-point simple glyph whose instruction program
is the single instruction `FLIPON`: contour count 1, bounds (0,0)–(100,100),
one on-curve point at (50, 80), advance width 80, left side bearing 5. -/
def fontSimple : Font :=
  { fontW with
    loca := [0, 0, 0, 9], locaOffsetFormat := 1, nGlyph := 1, nHMetric := 1,
    hmtx := [0, 80, 0, 5],
    glyf := [0, 1, 0, 0, 0, 0, 0, 100, 0, 100,
             0, 0, 0, 1, 0x4D, 0x37, 50, 80],
    maxStackElements := 32, maxStorage := 8, maxTwilightPoints := 4 }


/-- `addPhantomsAndScale` always appends exactly four points. -/
theorem aps_Point_length (g : GlyphBuf) (b : Bounds) (uhm : FT.HMetric) (i np0 : Nat)
    (simple : Bool) :
    (addPhantomsAndScale g b uhm i np0 simple).Point.length = g.Point.length + 4 := by
  have hph : (phantomPoints b uhm (g.font.unscaledVMetric i b.YMax)).length = 4 := rfl
  unfold addPhantomsAndScale
  dsimp only
  rw [roundPtAt_length, roundPtAt_length]
  split
  all_goals dsimp only
  · rw [apsShift_length, mapFrom_length, List.length_append, hph]
  · rw [mapFrom_length, List.length_append, hph]

/-- C3: the phantom-point lifecycle.  (i) On the hinted simple-glyph path
the font-unit capture appends, after the glyph's own points, exactly the
four phantom points `(xmin − lsb, 0)`, `(xmin − lsb + advance, 0)`,
`(advance/2, ymax + tsb)`, `(advance/2, ymax + tsb − vertAdvance)` in that
order, in font units, before any scaling.  (ii) The in-font-units zone
slice that `simpleBranchEpilogue` hands to `Hinter.run` —
`InFontUnits.drop np0` — is the glyph's own points followed by those four
phantom points, so the hinter sees them.  (iii) `Point` always grows by
exactly four points, so the current-points slice `Point.drop np0` given to
the hinter contains the four scaled phantom points as well.  (iv) With a
hinter and an empty program, the epilogue strips exactly the four phantom
points from all three lists.  (v) With a hinter and a nonempty program that
runs successfully, the returned lists are the run's output arrays with
their last four (phantom) points dropped.  (vi) End to end: loading the
one-point hinted `fontSimple` through `GlyphBuf.Load` succeeds with
one-point `Point`/`Unhinted`/`InFontUnits` lists — no phantom points
remain, and `InFontUnits` holds the point in raw font units. -/
theorem phantom_points_lifecycle :
    (∀ (g : GlyphBuf) (b : Bounds) (uhm : FT.HMetric) (i np0 : Nat),
      np0 ≤ g.Point.length → g.hinter.isSome →
      (addPhantomsAndScale g b uhm i np0 true).InFontUnits
        = g.InFontUnits ++ g.Point.drop np0 ++
          [⟨b.XMin - uhm.LeftSideBearing, 0, 0⟩,
           ⟨b.XMin - uhm.LeftSideBearing + (uhm.AdvanceWidth : Int), 0, 0⟩,
           ⟨Int.tdiv (uhm.AdvanceWidth : Int) 2,
             b.YMax + (g.font.unscaledVMetric i b.YMax).TopSideBearing, 0⟩,
           ⟨Int.tdiv (uhm.AdvanceWidth : Int) 2,
             b.YMax + (g.font.unscaledVMetric i b.YMax).TopSideBearing
               - (g.font.unscaledVMetric i b.YMax).AdvanceHeight, 0⟩]) ∧
    (∀ (g : GlyphBuf) (b : Bounds) (uhm : FT.HMetric) (i np0 : Nat),
      np0 ≤ g.Point.length → g.hinter.isSome → g.InFontUnits.length = np0 →
      (addPhantomsAndScale g b uhm i np0 true).InFontUnits.drop np0
        = g.Point.drop np0 ++ phantomPoints b uhm (g.font.unscaledVMetric i b.YMax)) ∧
    (∀ (g : GlyphBuf) (b : Bounds) (uhm : FT.HMetric) (i np0 : Nat) (simple : Bool),
      (addPhantomsAndScale g b uhm i np0 simple).Point.length = g.Point.length + 4) ∧
    (∀ (g : GlyphBuf) (b : Bounds) (uhm : FT.HMetric) (i np0 ne0 : Nat),
      np0 ≤ g.Point.length → g.hinter.isSome →
      (simpleBranchEpilogue (addPhantomsAndScale g b uhm i np0 true) [] np0 ne0).map
          (fun x => (x.1.Point, x.1.Unhinted, x.1.InFontUnits))
        = .ok (g.Point.take np0
              ++ (((addPhantomsAndScale g b uhm i np0 true).Point.drop np0).take
                    (g.Point.length - np0)),
            g.Unhinted
              ++ (((addPhantomsAndScale g b uhm i np0 true).Point.drop np0).take
                    (g.Point.length - np0)),
            g.InFontUnits ++ g.Point.drop np0)) ∧
    (∀ (g1 : GlyphBuf) (hh : Hinter) (program : List Nat) (np0 ne0 : Nat) (ls : LoopState),
      g1.hinter = some hh → ¬ program = [] →
      Hinter.run hh program ⟨g1.Point.drop np0⟩ ⟨g1.Unhinted.drop np0⟩
          ⟨g1.InFontUnits.drop np0⟩ (g1.End.drop ne0) = .ok ls →
      4 ≤ ls.h.points.glyph.cur.size → 4 ≤ ls.h.points.glyph.unh.size →
      4 ≤ ls.h.points.glyph.ifu.size →
      (simpleBranchEpilogue g1 program np0 ne0).map
          (fun x => (x.1.Point, x.1.Unhinted, x.1.InFontUnits))
        = .ok (g1.Point.take np0
                ++ ls.h.points.glyph.cur.toList.take (ls.h.points.glyph.cur.size - 4),
              g1.Unhinted.take np0
                ++ ls.h.points.glyph.unh.toList.take (ls.h.points.glyph.unh.size - 4),
              g1.InFontUnits.take np0
                ++ ls.h.points.glyph.ifu.toList.take (ls.h.points.glyph.ifu.size - 4))) ∧
    (GlyphBufLoad emptyGB fontSimple 2048 0 (some freshHinter) true).map
        (fun g => (g.Point, g.Unhinted, g.InFontUnits, g.End))
      = .ok ([⟨55, 80, 0x37⟩], [⟨55, 80, 0x37⟩], [⟨50, 80, 0x37⟩], [1]) := by
  refine ⟨?_, ?_, ?_, ?_, ?_, ?_⟩
  · intro g b uhm i np0 h hh
    rw [(aps_all g b uhm i np0 h hh).1, List.append_assoc]
    rfl
  · intro g b uhm i np0 h hh hl
    rw [(aps_all g b uhm i np0 h hh).1]
    calc (g.InFontUnits ++ (g.Point.drop np0
          ++ phantomPoints b uhm (g.font.unscaledVMetric i b.YMax))).drop np0
        = (g.InFontUnits ++ (g.Point.drop np0
            ++ phantomPoints b uhm (g.font.unscaledVMetric i b.YMax))).drop
            (g.InFontUnits.length + 0) := by rw [hl, Nat.add_zero]
      _ = _ := by rw [List.drop_append, List.drop_zero]
  · intro g b uhm i np0 simple
    exact aps_Point_length g b uhm i np0 simple
  · intro g b uhm i np0 ne0 h hh
    exact sbe_noprog g b uhm i np0 ne0 h hh
  · intro g1 hh program np0 ne0 ls hsome hp hrun hc hu hf
    exact sbe_prog g1 hh program np0 ne0 ls hsome hp hrun hc hu hf
  · rfl


/-- A one-point glyph buffer with a fresh hinter, used as the C3 witness
input. -/
def gW3 : GlyphBuf :=
  { emptyGB with Point := [⟨10, 20, 1⟩], hinter := some freshHinter, scale := 2048 }

/-- Witness bounds (0,0)–(100,100). -/
def bW3 : Bounds := ⟨0, 0, 100, 100⟩

/-- Witness horizontal metric: advance 80, left side bearing 5. -/
def uhmW3 : FT.HMetric := ⟨80, 5⟩

/-- `gW3` with phantoms appended and scaled. -/
def g1W3 : GlyphBuf := addPhantomsAndScale gW3 bW3 uhmW3 0 0 true

/-- The loop state after running `FLIPON` over `g1W3`'s points. -/
def lsW3 : LoopState :=
  extractLS (Hinter.run freshHinter [0x4D] ⟨g1W3.Point.drop 0⟩ ⟨g1W3.Unhinted.drop 0⟩
    ⟨g1W3.InFontUnits.drop 0⟩ (g1W3.End.drop 0))

set_option maxRecDepth 16000 in
/-- Witness for C3 at the one-point buffer `gW3`: the four phantom points
in font units are `(−5,0), (75,0), (40,100), (40,100)` (advance 80, lsb 5,
bounds ymax 100, zero vertical metrics), the hinter-visible in-font-units
slice ends with them, and both epilogue paths strip them. -/
theorem phantom_points_lifecycle_witness :
    ((addPhantomsAndScale gW3 bW3 uhmW3 0 0 true).InFontUnits
        = gW3.InFontUnits ++ gW3.Point.drop 0 ++
          [⟨-5, 0, 0⟩, ⟨75, 0, 0⟩, ⟨40, 100, 0⟩, ⟨40, 100, 0⟩]) ∧
    ((addPhantomsAndScale gW3 bW3 uhmW3 0 0 true).InFontUnits.drop 0
        = gW3.Point.drop 0 ++ phantomPoints bW3 uhmW3 (gW3.font.unscaledVMetric 0 bW3.YMax)) ∧
    ((simpleBranchEpilogue (addPhantomsAndScale gW3 bW3 uhmW3 0 0 true) [] 0 0).map
          (fun x => (x.1.Point, x.1.Unhinted, x.1.InFontUnits))
        = .ok (gW3.Point.take 0
              ++ (((addPhantomsAndScale gW3 bW3 uhmW3 0 0 true).Point.drop 0).take
                    (gW3.Point.length - 0)),
            gW3.Unhinted
              ++ (((addPhantomsAndScale gW3 bW3 uhmW3 0 0 true).Point.drop 0).take
                    (gW3.Point.length - 0)),
            gW3.InFontUnits ++ gW3.Point.drop 0)) ∧
    ((simpleBranchEpilogue g1W3 [0x4D] 0 0).map
          (fun x => (x.1.Point, x.1.Unhinted, x.1.InFontUnits))
        = .ok (g1W3.Point.take 0
                ++ lsW3.h.points.glyph.cur.toList.take (lsW3.h.points.glyph.cur.size - 4),
              g1W3.Unhinted.take 0
                ++ lsW3.h.points.glyph.unh.toList.take (lsW3.h.points.glyph.unh.size - 4),
              g1W3.InFontUnits.take 0
                ++ lsW3.h.points.glyph.ifu.toList.take (lsW3.h.points.glyph.ifu.size - 4))) :=
  ⟨phantom_points_lifecycle.1 gW3 bW3 uhmW3 0 0 (by decide) (by rfl),
   phantom_points_lifecycle.2.1 gW3 bW3 uhmW3 0 0 (by decide) (by rfl) (by rfl),
   phantom_points_lifecycle.2.2.2.1 gW3 bW3 uhmW3 0 0 0 (by decide) (by rfl),
   phantom_points_lifecycle.2.2.2.2.1 g1W3 freshHinter [0x4D] 0 0 lsW3 (by rfl) (by decide)
     (by rfl) (by decide) (by decide) (by decide)⟩


end FT
